import Mathlib

/-!
Verification of the vessel hotspot engine specification against the
repository's clustering code.

The repository implements greedy seed-and-absorb spatial clustering of
vessel position fixes in several front-end pages.  Two variants are
embedded here:

* `Home.clusterMarkers` — the unfiltered variant (`page.tsx` lines
  535-608 and its copy in the unnamed home page file): every marker is
  clustered, distances use the inline haversine formula, multi-member
  clusters are re-positioned at the spherical (vector-mean) centroid.

* `Dashboard.clusterMarkers` — the dashboard variant
  (`dashboard/page.tsx` lines 85-198, duplicated in the unnamed
  dashboard file): seeds are filtered by a registered-visibility
  toggle, a role-based clearance gate, a timestamp window and a
  viewport culling distance; absorption additionally requires the
  candidate's `registered` flag to equal the cluster's; multi-member
  clusters are re-positioned at the member closest to the spherical
  centroid.

JavaScript `number` arithmetic is modelled over `ℝ`; `Infinity` (used
for the `closest`/`mndis` accumulators) is modelled by `(⊤ : EReal)`;
`new Date(timestamp).getTime()` is modelled by an integer `time` field.
The loops over an array with a `processed : Set<number>` index set are
represented positionally: the state is the list of markers each paired
with its processed flag, split into the part before the current outer
index (`visited`) and the part from it onwards (`toVisit`), which the
scans traverse in array order.  The outer loop is driven by a fuel
counter equal to the length of `toVisit`, which the scans preserve.
-/

noncomputable section

/-- Two-argument arctangent, `atan2 y x`, as computed by JavaScript's
`Math.atan2`: the argument of the complex number `x + y·i`, in `(-π, π]`. -/
def atan2 (y x : ℝ) : ℝ :=
  Complex.arg ⟨x, y⟩

/-- The haversine intermediate `a` of the inline distance computation:
`sin²(dLat/2) + cos(mLat)·cos(oLat)·sin²(dLng/2)`, with all four inputs in
degrees and converted by `· * π / 180` exactly as the source does. -/
def havParam (mlat mlng olat olng : ℝ) : ℝ :=
  Real.sin ((olat - mlat) * Real.pi / 180 / 2) * Real.sin ((olat - mlat) * Real.pi / 180 / 2) +
    Real.cos (mlat * Real.pi / 180) * Real.cos (olat * Real.pi / 180) *
      (Real.sin ((olng - mlng) * Real.pi / 180 / 2) * Real.sin ((olng - mlng) * Real.pi / 180 / 2))

/-- Great-circle distance in kilometres as the source computes it:
`R · c` with `R = 6371` and `c = 2 · atan2(√a, √(1-a))`. -/
def haversineKm (mlat mlng olat olng : ℝ) : ℝ :=
  6371 * (2 * atan2 (Real.sqrt (havParam mlat mlng olat olng))
    (Real.sqrt (1 - havParam mlat mlng olat olng)))

/-- A clustering radius expressed through the haversine parameter: the
distance whose haversine intermediate value is exactly `t`. -/
def thresholdOf (t : ℝ) : ℝ :=
  12742 * Real.arcsin (Real.sqrt t)

namespace Home

/-- Vessel marker of the home globe page (`page.tsx`): position plus the
fishing and registration flags. -/
structure VesselData where
  lat : ℝ
  lng : ℝ
  isfishing : Bool
  legal : Bool

/-- Cluster record of the home globe page. -/
structure ClusterData where
  lat : ℝ
  lng : ℝ
  count : ℕ
  markers : List VesselData
  isfishing : Bool
  legal : Bool
  closest : EReal

/-- The fresh cluster created for a seed marker. -/
def seedCluster (m : VesselData) : ClusterData :=
  { lat := m.lat
    lng := m.lng
    count := 1
    markers := [m]
    isfishing := m.isfishing
    legal := m.legal
    closest := ⊤ }

/-- The in-place updates performed when a marker is absorbed:
`count++`, push to `markers`, conjoin `legal`, and update `closest`. -/
def absorb (cl : ClusterData) (o : VesselData) (d : ℝ) : ClusterData :=
  { cl with
    count := cl.count + 1
    markers := cl.markers ++ [o]
    legal := cl.legal && o.legal
    closest := min cl.closest (d : EReal) }

/-- Inner absorption loop over a slice of the marker array (in array
order), threading the cluster and updating processed flags; markers
already processed or at the seed's index are not in the slice. -/
def absorbScan (seed : VesselData) (thr : ℝ) :
    ClusterData → List (VesselData × Bool) → ClusterData × List (VesselData × Bool)
  | cl, [] => (cl, [])
  | cl, (o, done) :: rest =>
    if done then
      let r := absorbScan seed thr cl rest
      (r.1, (o, done) :: r.2)
    else if haversineKm seed.lat seed.lng o.lat o.lng < thr then
      let r := absorbScan seed thr
        (absorb cl o (haversineKm seed.lat seed.lng o.lat o.lng)) rest
      (r.1, (o, true) :: r.2)
    else
      let r := absorbScan seed thr cl rest
      (r.1, (o, done) :: r.2)

/-- Re-positioning of a multi-member cluster at the spherical vector-mean
centroid (`page.tsx` lines 578-601): average the unit vectors of the
members, renormalize, and convert back with `asin`/`atan2`. -/
def recenter (cl : ClusterData) : ClusterData :=
  if 1 < cl.markers.length then
    let total : ℝ := cl.markers.length
    let x := ((cl.markers.map fun m =>
      Real.cos (m.lat * Real.pi / 180) * Real.cos (m.lng * Real.pi / 180)).sum) / total
    let y := ((cl.markers.map fun m =>
      Real.cos (m.lat * Real.pi / 180) * Real.sin (m.lng * Real.pi / 180)).sum) / total
    let z := ((cl.markers.map fun m => Real.sin (m.lat * Real.pi / 180)).sum) / total
    let norm := Real.sqrt (x * x + y * y + z * z)
    { cl with
      lat := Real.arcsin (z / norm) * 180 / Real.pi
      lng := atan2 (y / norm) (x / norm) * 180 / Real.pi }
  else cl

/-- Outer loop of the home page clustering: walk the marker array in
order; a processed entry is skipped, otherwise it seeds a new cluster
that absorbs from the part of the array before it and after it. -/
def outerScan (thr : ℝ) :
    ℕ → List (VesselData × Bool) → List (VesselData × Bool) → List ClusterData
  | 0, _, _ => []
  | _ + 1, _, [] => []
  | fuel + 1, visited, (m, done) :: rest =>
    if done then outerScan thr fuel (visited ++ [(m, done)]) rest
    else
      let s1 := absorbScan m thr (seedCluster m) visited
      let s2 := absorbScan m thr s1.1 rest
      recenter s2.1 :: outerScan thr fuel (s1.2 ++ [(m, true)]) s2.2

/-- The home page `clusterMarkers(markers, clusterThreshold)` function:
greedy seed-and-absorb clustering of the whole marker list. -/
def clusterMarkers (markers : List VesselData) (clusterThreshold : ℝ) : List ClusterData :=
  if markers.isEmpty then []
  else outerScan clusterThreshold markers.length [] (markers.map fun m => (m, false))

/-- Multiset of markers carried by the not-yet-processed entries of a
flagged slice. -/
def unproc (l : List (VesselData × Bool)) : Multiset VesselData :=
  ((l.filter fun e => !e.2).map Prod.fst : List VesselData)

/-- Multiset of all members over a list of clusters. -/
def clusterMembers (cls : List ClusterData) : Multiset VesselData :=
  (cls.map fun c => (c.markers : Multiset VesselData)).sum

end Home

/-- Spherical centroid of a list of `(lat, lng)` points in degrees, as the
inline code computes it: arithmetic mean of the 3-D unit vectors,
renormalized, converted back by `asin`/`atan2`.  The code divides by the
vector norm with no guard; for the empty list and for a zero mean vector
the JavaScript computation yields `NaN` coordinates, modelled here by
`none`. -/
noncomputable def sphericalCentroidNorm (points : List (ℝ × ℝ)) : ℝ :=
  let total : ℝ := points.length
  let x := ((points.map fun p =>
    Real.cos (p.1 * Real.pi / 180) * Real.cos (p.2 * Real.pi / 180)).sum) / total
  let y := ((points.map fun p =>
    Real.cos (p.1 * Real.pi / 180) * Real.sin (p.2 * Real.pi / 180)).sum) / total
  let z := ((points.map fun p => Real.sin (p.1 * Real.pi / 180)).sum) / total
  Real.sqrt (x * x + y * y + z * z)

/-- Spherical (vector-mean) centroid; `none` exactly when the JavaScript
computation produces `NaN` (empty input, or zero mean vector). -/
noncomputable def sphericalCentroid (points : List (ℝ × ℝ)) : Option (ℝ × ℝ) :=
  if points = [] then none
  else
    let total : ℝ := points.length
    let x := ((points.map fun p =>
      Real.cos (p.1 * Real.pi / 180) * Real.cos (p.2 * Real.pi / 180)).sum) / total
    let y := ((points.map fun p =>
      Real.cos (p.1 * Real.pi / 180) * Real.sin (p.2 * Real.pi / 180)).sum) / total
    let z := ((points.map fun p => Real.sin (p.1 * Real.pi / 180)).sum) / total
    let norm := Real.sqrt (x * x + y * y + z * z)
    if norm = 0 then none
    else some (Real.arcsin (z / norm) * 180 / Real.pi,
      atan2 (y / norm) (x / norm) * 180 / Real.pi)

namespace Dashboard

/-- Vessel marker of the dashboard page: position, registration flag and
observation time (the value of `new Date(timestamp).getTime()`). -/
structure VesselData where
  lat : ℝ
  lng : ℝ
  registered : Bool
  time : ℤ

/-- Cluster record of the dashboard page. -/
structure ClusterData where
  lat : ℝ
  lng : ℝ
  count : ℕ
  markers : List VesselData
  registered : Bool
  closest : EReal

/-- The caller-state parameters read by the dashboard `clusterMarkers`:
the registered-markers toggle, whether the user holds one of the
`confidential`/`secret`/`top-secret` roles (`hasAnyRole`), the timestamp
slider bounds, the camera point of view, and the culling switch. -/
structure Params where
  showRegistered : Bool
  clearance : Bool
  timeL : ℤ
  timeR : ℤ
  povLat : ℝ
  povLng : ℝ
  altitude : ℝ
  cull : Bool

/-- Cluster distance threshold: `Math.min(10000, 1500 * pov.altitude)`. -/
def clusterThreshold (p : Params) : ℝ :=
  min 10000 (1500 * p.altitude)

/-- Culling threshold: `Math.max(1, Math.min(70000, 7000 * pov.altitude))`. -/
def cullingThreshold (p : Params) : ℝ :=
  max 1 (min 70000 (7000 * p.altitude))

/-- The fresh cluster created for a seed marker. -/
def seedCluster (m : VesselData) : ClusterData :=
  { lat := m.lat
    lng := m.lng
    count := 1
    markers := [m]
    registered := m.registered
    closest := ⊤ }

/-- Absorption updates: `count++`, push, conjoin `registered`, update
`closest`. -/
def absorb (cl : ClusterData) (o : VesselData) (d : ℝ) : ClusterData :=
  { cl with
    count := cl.count + 1
    markers := cl.markers ++ [o]
    registered := cl.registered && o.registered
    closest := min cl.closest (d : EReal) }

/-- Inner absorption loop of the dashboard clustering: a candidate is
skipped when already processed or when its `registered` flag differs
from the cluster's; otherwise it is absorbed when within the cluster
threshold of the seed. -/
def absorbScan (seed : VesselData) (thr : ℝ) :
    ClusterData → List (VesselData × Bool) → ClusterData × List (VesselData × Bool)
  | cl, [] => (cl, [])
  | cl, (o, done) :: rest =>
    if done then
      let r := absorbScan seed thr cl rest
      (r.1, (o, done) :: r.2)
    else if cl.registered ≠ o.registered then
      let r := absorbScan seed thr cl rest
      (r.1, (o, done) :: r.2)
    else if haversineKm seed.lat seed.lng o.lat o.lng < thr then
      let r := absorbScan seed thr
        (absorb cl o (haversineKm seed.lat seed.lng o.lat o.lng)) rest
      (r.1, (o, true) :: r.2)
    else
      let r := absorbScan seed thr cl rest
      (r.1, (o, done) :: r.2)

/-- The spherical vector-mean centroid of a member list, in degrees, as
the dashboard code computes it before choosing a representative point. -/
def centroid (ms : List VesselData) : ℝ × ℝ :=
  let total : ℝ := ms.length
  let x := ((ms.map fun m =>
    Real.cos (m.lat * Real.pi / 180) * Real.cos (m.lng * Real.pi / 180)).sum) / total
  let y := ((ms.map fun m =>
    Real.cos (m.lat * Real.pi / 180) * Real.sin (m.lng * Real.pi / 180)).sum) / total
  let z := ((ms.map fun m => Real.sin (m.lat * Real.pi / 180)).sum) / total
  let norm := Real.sqrt (x * x + y * y + z * z)
  (Real.arcsin (z / norm) * 180 / Real.pi, atan2 (y / norm) (x / norm) * 180 / Real.pi)

/-- The `mndis` loop: walk the members keeping the position of the first
member strictly closer to the centroid than every one seen so far
(`mndis` starts at `Infinity`). -/
def repScan (clat clng : ℝ) :
    List VesselData → (ℝ × ℝ) → EReal → (ℝ × ℝ) × EReal
  | [], best, mndis => (best, mndis)
  | m :: rest, best, mndis =>
    if (haversineKm m.lat m.lng clat clng : EReal) < mndis then
      repScan clat clng rest (m.lat, m.lng) (haversineKm m.lat m.lng clat clng)
    else repScan clat clng rest best mndis

/-- Dashboard re-positioning of a multi-member cluster: compute the
spherical centroid of the members, then move the cluster to the member
closest to it. -/
def recenter (cl : ClusterData) : ClusterData :=
  if 1 < cl.markers.length then
    let c := centroid cl.markers
    let r := repScan c.1 c.2 cl.markers (cl.lat, cl.lng) ⊤
    { cl with
      lat := r.1.1
      lng := r.1.2 }
  else cl

/-- One seed-eligibility test of the dashboard outer loop:
`marker.registered && !showRegistered`, the clearance gate
`!marker.registered && !hasAnyRole(...)`, the timestamp window
`timeL > v || timeR < v`, and the viewport culling test, in source
order.  `true` means the marker is skipped as a seed (its processed
flag is left unchanged). -/
def seedSkipped (p : Params) (m : VesselData) : Prop :=
  (m.registered = true ∧ p.showRegistered = false) ∨
    (m.registered = false ∧ p.clearance = false) ∨
    (p.timeL > m.time ∨ p.timeR < m.time) ∨
    (p.cull = true ∧ haversineKm m.lat m.lng p.povLat p.povLng > cullingThreshold p)

instance (p : Params) (m : VesselData) : Decidable (seedSkipped p m) := by
  unfold seedSkipped
  infer_instance

/-- Outer loop of the dashboard clustering: processed entries and
filter-skipped entries are passed over (the latter keep their
unprocessed flag and stay absorbable by later seeds); every other entry
seeds a cluster that absorbs from the array before and after it, then is
re-positioned. -/
def outerScan (p : Params) :
    ℕ → List (VesselData × Bool) → List (VesselData × Bool) → List ClusterData
  | 0, _, _ => []
  | _ + 1, _, [] => []
  | fuel + 1, visited, (m, done) :: rest =>
    if done then outerScan p fuel (visited ++ [(m, done)]) rest
    else if seedSkipped p m then outerScan p fuel (visited ++ [(m, done)]) rest
    else
      let s1 := absorbScan m (clusterThreshold p) (seedCluster m) visited
      let s2 := absorbScan m (clusterThreshold p) s1.1 rest
      recenter s2.1 :: outerScan p fuel (s1.2 ++ [(m, true)]) s2.2

/-- The dashboard `clusterMarkers(markers)` function under caller state
`p`. -/
def clusterMarkers (p : Params) (markers : List VesselData) : List ClusterData :=
  if markers.isEmpty then []
  else outerScan p markers.length [] (markers.map fun m => (m, false))

/-- Restriction of a flagged slice to its registered markers. -/
def filterReg (l : List (VesselData × Bool)) : List (VesselData × Bool) :=
  l.filter fun e => e.1.registered

end Dashboard

namespace Hotspot

/-- Modelled from the spec: the backend risk scorer
(`model/hotspot_analysis/hotspot_analyzer.py`) is not present in the
source tree — only its README.  Following §4.4 of the spec, a cluster is
abstracted to the list of its members' tracked flags.  `clamp01` clamps
a score into `[0,1]`. -/
def clamp01 (x : ℝ) : ℝ :=
  max 0 (min 1 x)

/-- Modelled from the spec: fraction of members with `tracked = false`. -/
def untrackedFraction (members : List Bool) : ℝ :=
  (members.countP fun b => b = false) / members.length

/-- Modelled from the spec: saturating density factor
`min(1, vesselCount / densityNormalizer)`. -/
def densityFactor (members : List Bool) (normalizer : ℝ) : ℝ :=
  min 1 (members.length / normalizer)

/-- Modelled from the spec: isolation factor — `0` when every member is
tracked, `1` when no member is tracked, `1/2` for a mixed cluster. -/
def isolationFactor (members : List Bool) : ℝ :=
  if members.all fun b => b then 0
  else if members.all fun b => !b then 1
  else 1 / 2

/-- Modelled from the spec: `riskScore =
clamp01(untrackedRatio · densityFactor · isolationFactor)` when
`isolationFactor > 0`, else `0`. -/
def riskScore (members : List Bool) (normalizer : ℝ) : ℝ :=
  if 0 < isolationFactor members then
    clamp01 (untrackedFraction members * densityFactor members normalizer *
      isolationFactor members)
  else 0

end Hotspot

end

section GeometryLemmas

theorem atan2_sqrt_eq_arcsin {A : ℝ} (h0 : 0 ≤ A) (h1 : A ≤ 1) :
    atan2 (Real.sqrt A) (Real.sqrt (1 - A)) = Real.arcsin (Real.sqrt A) := by
  unfold atan2
  have hre : (0:ℝ) ≤ (Complex.mk (Real.sqrt (1 - A)) (Real.sqrt A)).re := Real.sqrt_nonneg _
  rw [Complex.arg_of_re_nonneg hre]
  have habs : Complex.abs (Complex.mk (Real.sqrt (1 - A)) (Real.sqrt A)) = 1 := by
    rw [Complex.abs_apply, Complex.normSq_mk,
      Real.mul_self_sqrt (by linarith), Real.mul_self_sqrt h0]
    simp
  rw [habs]
  simp

theorem haversineKm_eq_arcsin {mlat mlng olat olng : ℝ}
    (h0 : 0 ≤ havParam mlat mlng olat olng) (h1 : havParam mlat mlng olat olng ≤ 1) :
    haversineKm mlat mlng olat olng
      = 12742 * Real.arcsin (Real.sqrt (havParam mlat mlng olat olng)) := by
  unfold haversineKm
  rw [atan2_sqrt_eq_arcsin h0 h1]
  ring

theorem haversineKm_nonneg (mlat mlng olat olng : ℝ) :
    0 ≤ haversineKm mlat mlng olat olng := by
  unfold haversineKm atan2
  have him : (0:ℝ) ≤ (Complex.mk (Real.sqrt (1 - havParam mlat mlng olat olng))
      (Real.sqrt (havParam mlat mlng olat olng))).im := Real.sqrt_nonneg _
  have := Complex.arg_nonneg_iff.mpr him
  positivity

theorem haversineKm_lt_threshold_iff {mlat mlng olat olng t : ℝ}
    (h0 : 0 ≤ havParam mlat mlng olat olng) (h1 : havParam mlat mlng olat olng ≤ 1)
    (ht0 : 0 ≤ t) (ht1 : t ≤ 1) :
    haversineKm mlat mlng olat olng < thresholdOf t ↔ havParam mlat mlng olat olng < t := by
  rw [haversineKm_eq_arcsin h0 h1]
  unfold thresholdOf
  have hmem : ∀ x : ℝ, 0 ≤ x → x ≤ 1 → Real.sqrt x ∈ Set.Icc (-1:ℝ) 1 := by
    intro x hx0 hx1
    constructor
    · linarith [Real.sqrt_nonneg x]
    · calc Real.sqrt x ≤ Real.sqrt 1 := Real.sqrt_le_sqrt hx1
        _ = 1 := Real.sqrt_one
  constructor
  · intro h
    have harc : Real.arcsin (Real.sqrt (havParam mlat mlng olat olng))
        < Real.arcsin (Real.sqrt t) := by linarith
    have := (Real.strictMonoOn_arcsin.lt_iff_lt (hmem _ h0 h1) (hmem _ ht0 ht1)).mp harc
    exact (Real.sqrt_lt_sqrt_iff h0).mp this
  · intro h
    have hs : Real.sqrt (havParam mlat mlng olat olng) < Real.sqrt t :=
      Real.sqrt_lt_sqrt h0 h
    have := Real.strictMonoOn_arcsin (hmem _ h0 h1) (hmem _ ht0 ht1) hs
    linarith

theorem thresholdOf_mono {s t : ℝ} (h : s ≤ t) :
    thresholdOf s ≤ thresholdOf t := by
  unfold thresholdOf
  have := Real.monotone_arcsin (Real.sqrt_le_sqrt h)
  linarith

theorem thresholdOf_nonneg {t : ℝ} : 0 ≤ thresholdOf t := by
  unfold thresholdOf
  have := Real.arcsin_nonneg.mpr (Real.sqrt_nonneg t)
  linarith

end GeometryLemmas

section HomeLemmas

namespace Home

theorem unproc_nil : unproc [] = 0 := rfl

theorem unproc_cons_true (o : VesselData) (rest : List (VesselData × Bool)) :
    unproc ((o, true) :: rest) = unproc rest := by
  simp [unproc]

theorem unproc_cons_false (o : VesselData) (rest : List (VesselData × Bool)) :
    unproc ((o, false) :: rest) = o ::ₘ unproc rest := by
  simp [unproc]

theorem absorbScan_snd_length (seed : VesselData) (thr : ℝ) :
    ∀ (l : List (VesselData × Bool)) (cl : ClusterData),
      ((absorbScan seed thr cl l).2).length = l.length := by
  intro l
  induction l with
  | nil => intro cl; simp [absorbScan]
  | cons e rest ih =>
    intro cl
    obtain ⟨o, done⟩ := e
    cases done with
    | true => simp [absorbScan, ih]
    | false =>
      by_cases hlt : haversineKm seed.lat seed.lng o.lat o.lng < thr
      · simp [absorbScan, hlt, ih]
      · simp [absorbScan, hlt, ih]

theorem absorbScan_fst_markers (seed : VesselData) (thr : ℝ) :
    ∀ (l : List (VesselData × Bool)) (cl : ClusterData),
      ∃ extra, ((absorbScan seed thr cl l).1).markers = cl.markers ++ extra := by
  intro l
  induction l with
  | nil => intro cl; exact ⟨[], by simp [absorbScan]⟩
  | cons e rest ih =>
    intro cl
    obtain ⟨o, done⟩ := e
    cases done with
    | true =>
      obtain ⟨extra, hx⟩ := ih cl
      exact ⟨extra, by simpa [absorbScan] using hx⟩
    | false =>
      by_cases hlt : haversineKm seed.lat seed.lng o.lat o.lng < thr
      · obtain ⟨extra, hx⟩ := ih (absorb cl o (haversineKm seed.lat seed.lng o.lat o.lng))
        refine ⟨o :: extra, ?_⟩
        simp only [absorbScan, hlt, if_true, if_false, Bool.false_eq_true]
        simpa [absorb] using hx
      · obtain ⟨extra, hx⟩ := ih cl
        exact ⟨extra, by simpa [absorbScan, hlt] using hx⟩

theorem absorbScan_fst_pos (seed : VesselData) (thr : ℝ) :
    ∀ (l : List (VesselData × Bool)) (cl : ClusterData),
      ((absorbScan seed thr cl l).1).lat = cl.lat ∧
        ((absorbScan seed thr cl l).1).lng = cl.lng := by
  intro l
  induction l with
  | nil => intro cl; simp [absorbScan]
  | cons e rest ih =>
    intro cl
    obtain ⟨o, done⟩ := e
    cases done with
    | true => simpa [absorbScan] using ih cl
    | false =>
      by_cases hlt : haversineKm seed.lat seed.lng o.lat o.lng < thr
      · have := ih (absorb cl o (haversineKm seed.lat seed.lng o.lat o.lng))
        simpa [absorbScan, hlt, absorb] using this
      · simpa [absorbScan, hlt] using ih cl

theorem absorbScan_skips_done (seed : VesselData) (thr : ℝ) :
    ∀ (l : List (VesselData × Bool)) (cl : ClusterData),
      (∀ e ∈ l, e.2 = true) → absorbScan seed thr cl l = (cl, l) := by
  intro l
  induction l with
  | nil => intro cl _; simp [absorbScan]
  | cons e rest ih =>
    intro cl hall
    obtain ⟨o, done⟩ := e
    have hdone : done = true := hall (o, done) (by simp)
    subst hdone
    have hrest : ∀ e ∈ rest, e.2 = true := fun e he => hall e (by simp [he])
    simp [absorbScan, ih cl hrest]

theorem absorbScan_unproc (seed : VesselData) (thr : ℝ) :
    ∀ (l : List (VesselData × Bool)) (cl : ClusterData),
      (((absorbScan seed thr cl l).1).markers : Multiset VesselData) +
          unproc ((absorbScan seed thr cl l).2)
        = (cl.markers : Multiset VesselData) + unproc l := by
  intro l
  induction l with
  | nil => intro cl; simp [absorbScan, unproc_nil]
  | cons e rest ih =>
    intro cl
    obtain ⟨o, done⟩ := e
    cases done with
    | true =>
      simp only [absorbScan, if_true]
      rw [unproc_cons_true, unproc_cons_true]
      exact ih cl
    | false =>
      by_cases hlt : haversineKm seed.lat seed.lng o.lat o.lng < thr
      · simp only [absorbScan, hlt, if_true, if_false, Bool.false_eq_true]
        rw [unproc_cons_true, unproc_cons_false]
        have := ih (absorb cl o (haversineKm seed.lat seed.lng o.lat o.lng))
        rw [this]
        have hm : ((absorb cl o (haversineKm seed.lat seed.lng o.lat o.lng)).markers)
            = cl.markers ++ [o] := rfl
        rw [hm, ← Multiset.coe_add, ← Multiset.singleton_add]
        have hone : (([o] : List VesselData) : Multiset VesselData) = {o} := rfl
        rw [hone]
        abel
      · simp only [absorbScan, hlt, if_false, Bool.false_eq_true]
        rw [unproc_cons_false, unproc_cons_false]
        rw [Multiset.add_cons, Multiset.add_cons]
        rw [ih cl]

theorem recenter_markers (cl : ClusterData) : (recenter cl).markers = cl.markers := by
  unfold recenter
  split <;> rfl

theorem recenter_single (cl : ClusterData) (h : ¬ 1 < cl.markers.length) :
    recenter cl = cl := by
  unfold recenter
  simp [h]

theorem outerScan_members (thr : ℝ) :
    ∀ (fuel : ℕ) (visited toVisit : List (VesselData × Bool)),
      toVisit.length ≤ fuel → (∀ e ∈ visited, e.2 = true) →
      clusterMembers (outerScan thr fuel visited toVisit) = unproc toVisit := by
  intro fuel
  induction fuel with
  | zero =>
    intro visited toVisit hlen _
    have : toVisit = [] := List.length_eq_zero.mp (Nat.le_zero.mp hlen)
    subst this
    simp [outerScan, clusterMembers, unproc_nil]
  | succ fuel ih =>
    intro visited toVisit hlen hvis
    cases toVisit with
    | nil => simp [outerScan, clusterMembers, unproc_nil]
    | cons e rest =>
      obtain ⟨m, done⟩ := e
      have hrestlen : rest.length ≤ fuel := by
        simpa using Nat.succ_le_succ_iff.mp hlen
      cases done with
      | true =>
        have hvis2 : ∀ e ∈ visited ++ [(m, true)], e.2 = true := by
          intro e he
          rcases List.mem_append.mp he with h | h
          · exact hvis e h
          · simp at h; simp [h]
        simp only [outerScan, if_true]
        rw [ih _ rest hrestlen hvis2, unproc_cons_true]
      | false =>
        simp only [outerScan, if_false, Bool.false_eq_true]
        rw [absorbScan_skips_done m thr visited (seedCluster m) hvis]
        have hvis2 : ∀ e ∈ visited ++ [(m, true)], e.2 = true := by
          intro e he
          rcases List.mem_append.mp he with h | h
          · exact hvis e h
          · simp at h; simp [h]
        have hlen2 : ((absorbScan m thr (seedCluster m) rest).2).length ≤ fuel := by
          rw [absorbScan_snd_length]; exact hrestlen
        simp only [clusterMembers, List.map_cons, Multiset.sum_cons]
        have hih := ih _ ((absorbScan m thr (seedCluster m) rest).2) hlen2 hvis2
        rw [recenter_markers]
        show ((absorbScan m thr (seedCluster m) rest).1.markers : Multiset VesselData) +
          clusterMembers (outerScan thr fuel ((visited ++ [(m, true)]))
            ((absorbScan m thr (seedCluster m) rest).2)) = unproc ((m, false) :: rest)
        rw [hih, absorbScan_unproc, unproc_cons_false]
        simp [seedCluster]

theorem clusterMembers_eq_flatten (cls : List ClusterData) :
    ((cls.map fun c => c.markers).flatten : Multiset VesselData) = clusterMembers cls := by
  induction cls with
  | nil => rfl
  | cons c rest ih =>
    simp only [List.map_cons, List.flatten_cons, clusterMembers, Multiset.sum_cons]
    rw [← Multiset.coe_add] at *
    rw [ih]
    rfl

theorem unproc_map_false (ms : List VesselData) :
    unproc (ms.map fun m => (m, false)) = (ms : Multiset VesselData) := by
  induction ms with
  | nil => rfl
  | cons a rest ih =>
    rw [List.map_cons, unproc_cons_false, ih, Multiset.cons_coe]

theorem clusterMarkers_members_perm (ms : List VesselData) (thr : ℝ) :
    ((Home.clusterMarkers ms thr).map fun c => c.markers).flatten.Perm ms := by
  by_cases hms : ms.isEmpty
  · have : ms = [] := List.isEmpty_iff.mp hms
    subst this
    simp [clusterMarkers]
  · rw [← Multiset.coe_eq_coe, clusterMembers_eq_flatten]
    unfold clusterMarkers
    rw [if_neg hms]
    rw [outerScan_members thr ms.length [] (ms.map fun m => (m, false))
      (by simp) (by simp)]
    exact unproc_map_false ms

end Home

end HomeLemmas

section ClaimC1

/-- C1: Clustering totality — for every fix set and every radius `r ≥ 0`,
the home page `clusterMarkers` partitions its input exactly: the
concatenation of all produced clusters' member lists is a permutation of
the input, and (for duplicate-free inputs) every fix appears in the
members of exactly one produced cluster. -/
theorem clusterMarkers_partitions (ms : List Home.VesselData) (thr : ℝ) (h : 0 ≤ thr) :
    ((Home.clusterMarkers ms thr).map fun c => c.markers).flatten.Perm ms ∧
      (ms.Nodup → ∀ m ∈ ms, ∃! i : Fin (Home.clusterMarkers ms thr).length,
        m ∈ ((Home.clusterMarkers ms thr).get i).markers) := by
  refine ⟨Home.clusterMarkers_members_perm ms thr, ?_⟩
  intro hnd m hm
  have hperm := Home.clusterMarkers_members_perm ms thr
  have hndJ : ((Home.clusterMarkers ms thr).map fun c => c.markers).flatten.Nodup :=
    hperm.nodup_iff.mpr hnd
  have hmem : m ∈ ((Home.clusterMarkers ms thr).map fun c => c.markers).flatten :=
    hperm.mem_iff.mpr hm
  obtain ⟨li, hli, hmli⟩ := List.mem_flatten.mp hmem
  obtain ⟨i, hgeti⟩ := List.mem_iff_get.mp hli
  have hlen : ((Home.clusterMarkers ms thr).map fun c => c.markers).length
      = (Home.clusterMarkers ms thr).length := by simp
  obtain ⟨hall, hpair⟩ := List.nodup_flatten.mp hndJ
  have hdisj := List.pairwise_iff_get.mp hpair
  have hgets : ∀ (k : ℕ) (hk : k < (Home.clusterMarkers ms thr).length),
      ((Home.clusterMarkers ms thr).map fun c => c.markers).get ⟨k, by simpa using hk⟩
        = ((Home.clusterMarkers ms thr).get ⟨k, hk⟩).markers := by
    intro k hk
    simp [List.get_eq_getElem]
  refine ⟨⟨i.1, hlen ▸ i.2⟩, ?_, ?_⟩
  · show m ∈ ((Home.clusterMarkers ms thr).get ⟨i.1, hlen ▸ i.2⟩).markers
    rw [← hgets i.1 (hlen ▸ i.2)]
    have : (⟨i.1, by simpa using hlen ▸ i.2⟩ : Fin ((Home.clusterMarkers ms thr).map
        (fun c => c.markers)).length) = i := Fin.ext rfl
    rw [this, hgeti]
    exact hmli
  · intro j hj
    have hj2 : m ∈ ((Home.clusterMarkers ms thr).get j).markers := hj
    apply Fin.ext
    show j.1 = i.1
    by_contra hne
    have hmj : m ∈ ((Home.clusterMarkers ms thr).map fun c => c.markers).get
        ⟨j.1, by simpa using j.2⟩ := by
      rw [hgets j.1 j.2]
      exact hj2
    have hmi : m ∈ ((Home.clusterMarkers ms thr).map fun c => c.markers).get i := by
      rw [hgeti]
      exact hmli
    have hi' : i = (⟨i.1, by simpa using i.2⟩ : Fin ((Home.clusterMarkers ms thr).map
        (fun c => c.markers)).length) := Fin.ext rfl
    rcases Nat.lt_or_ge j.1 i.1 with hlt | hge
    · exact hdisj ⟨j.1, by simpa using j.2⟩ i (by rw [Fin.lt_def]; exact hlt) hmj hmi
    · have hgt : i.1 < j.1 := lt_of_le_of_ne hge (fun hv => hne hv.symm)
      exact hdisj i ⟨j.1, by simpa using j.2⟩ (by rw [Fin.lt_def]; exact hgt) hmi hmj

/-- Witness for C1 at a concrete two-fix input with radius 1. -/
theorem clusterMarkers_partitions_witness :
    (0:ℝ) ≤ 1 ∧
      (((Home.clusterMarkers [⟨0, 0, false, true⟩, ⟨50, 50, true, false⟩] 1).map
        fun c => c.markers).flatten.Perm [⟨0, 0, false, true⟩, ⟨50, 50, true, false⟩] ∧
      (([⟨0, 0, false, true⟩, ⟨50, 50, true, false⟩] : List Home.VesselData).Nodup →
        ∀ m ∈ ([⟨0, 0, false, true⟩, ⟨50, 50, true, false⟩] : List Home.VesselData),
        ∃! i : Fin (Home.clusterMarkers [⟨0, 0, false, true⟩, ⟨50, 50, true, false⟩] 1).length,
          m ∈ ((Home.clusterMarkers [⟨0, 0, false, true⟩, ⟨50, 50, true, false⟩] 1).get
            i).markers)) :=
  ⟨zero_le_one, clusterMarkers_partitions _ 1 zero_le_one⟩

end ClaimC1

section ClaimC7

theorem Home.absorbScan_nonpos (seed : Home.VesselData) (thr : ℝ) (hthr : thr ≤ 0) :
    ∀ (l : List (Home.VesselData × Bool)) (cl : Home.ClusterData),
      Home.absorbScan seed thr cl l = (cl, l) := by
  intro l
  induction l with
  | nil => intro cl; simp [Home.absorbScan]
  | cons e rest ih =>
    intro cl
    obtain ⟨o, done⟩ := e
    have hnlt : ¬ haversineKm seed.lat seed.lng o.lat o.lng < thr := by
      have := haversineKm_nonneg seed.lat seed.lng o.lat o.lng
      linarith
    cases done with
    | true => simp [Home.absorbScan, ih cl]
    | false => simp [Home.absorbScan, hnlt, ih cl]

theorem Home.outerScan_nonpos (thr : ℝ) (hthr : thr ≤ 0) :
    ∀ (fuel : ℕ) (visited toVisit : List (Home.VesselData × Bool)),
      toVisit.length ≤ fuel →
      Home.outerScan thr fuel visited toVisit
        = (toVisit.filter fun e => !e.2).map fun e => Home.seedCluster e.1 := by
  intro fuel
  induction fuel with
  | zero =>
    intro visited toVisit hlen
    have : toVisit = [] := List.length_eq_zero.mp (Nat.le_zero.mp hlen)
    subst this
    simp [Home.outerScan]
  | succ fuel ih =>
    intro visited toVisit hlen
    cases toVisit with
    | nil => simp [Home.outerScan]
    | cons e rest =>
      obtain ⟨m, done⟩ := e
      have hrestlen : rest.length ≤ fuel := by simpa using Nat.succ_le_succ_iff.mp hlen
      cases done with
      | true =>
        simp only [Home.outerScan, if_true]
        rw [ih _ rest hrestlen]
        simp
      | false =>
        simp only [Home.outerScan, if_false, Bool.false_eq_true]
        rw [Home.absorbScan_nonpos m thr hthr visited (Home.seedCluster m)]
        rw [Home.absorbScan_nonpos m thr hthr rest (Home.seedCluster m)]
        rw [Home.recenter_single _ (by simp [Home.seedCluster])]
        rw [ih _ rest hrestlen]
        simp

theorem Home.clusterMarkers_nonpos (ms : List Home.VesselData) (thr : ℝ) (hthr : thr ≤ 0) :
    Home.clusterMarkers ms thr = ms.map Home.seedCluster := by
  by_cases hms : ms.isEmpty
  · have : ms = [] := List.isEmpty_iff.mp hms
    subst this
    simp [Home.clusterMarkers]
  · unfold Home.clusterMarkers
    rw [if_neg hms, Home.outerScan_nonpos thr hthr ms.length [] _ (by simp)]
    have : (ms.map fun m => (m, false)).filter (fun e => !e.2) = ms.map fun m => (m, false) := by
      induction ms with
      | nil => simp
      | cons a rest ih => simp [ih]
    rw [this]
    simp

/-- C7: Zero-radius degeneration — for every fix set of size `n` and every
`radiusKm ≤ 0`, the clustering returns exactly `n` clusters, each with
exactly one member (no absorption occurs, since distances are
non-negative and absorption needs a distance strictly below the
threshold). -/
theorem zero_radius_singletons (ms : List Home.VesselData) (thr : ℝ) (hthr : thr ≤ 0) :
    (Home.clusterMarkers ms thr).length = ms.length ∧
      ∀ c ∈ Home.clusterMarkers ms thr, c.markers.length = 1 := by
  rw [Home.clusterMarkers_nonpos ms thr hthr]
  constructor
  · simp
  · intro c hc
    obtain ⟨m, _, hcm⟩ := List.mem_map.mp hc
    rw [← hcm]
    simp [Home.seedCluster]

/-- Witness for C7 at a concrete two-fix input with radius 0. -/
theorem zero_radius_singletons_witness :
    (0:ℝ) ≤ 0 ∧
      ((Home.clusterMarkers [⟨0, 0, false, true⟩, ⟨0, 0, true, false⟩] 0).length = 2 ∧
        ∀ c ∈ Home.clusterMarkers [⟨0, 0, false, true⟩, ⟨0, 0, true, false⟩] 0,
          c.markers.length = 1) :=
  ⟨le_refl 0, zero_radius_singletons [⟨0, 0, false, true⟩, ⟨0, 0, true, false⟩] 0 (le_refl 0)⟩

end ClaimC7

section ClaimC5

theorem havParam_symm (mlat mlng olat olng : ℝ) :
    havParam mlat mlng olat olng = havParam olat olng mlat mlng := by
  unfold havParam
  have e1 : (mlat - olat) * Real.pi / 180 / 2 = -((olat - mlat) * Real.pi / 180 / 2) := by ring
  have e2 : (mlng - olng) * Real.pi / 180 / 2 = -((olng - mlng) * Real.pi / 180 / 2) := by ring
  rw [e1, e2, Real.sin_neg, Real.sin_neg]
  ring

theorem haversineKm_symm (mlat mlng olat olng : ℝ) :
    haversineKm mlat mlng olat olng = haversineKm olat olng mlat mlng := by
  unfold haversineKm
  rw [havParam_symm]

theorem haversineKm_of_hav_zero {mlat mlng olat olng : ℝ}
    (h : havParam mlat mlng olat olng = 0) : haversineKm mlat mlng olat olng = 0 := by
  unfold haversineKm
  rw [h]
  have h1 : atan2 (Real.sqrt 0) (Real.sqrt (1 - 0)) = 0 := by
    unfold atan2
    rw [Real.sqrt_zero]
    have : Real.sqrt (1 - 0) = 1 := by
      rw [show (1:ℝ) - 0 = 1 by ring, Real.sqrt_one]
    rw [this]
    have hone : (Complex.mk 1 0) = (1 : ℂ) := by
      apply Complex.ext <;> simp
    rw [hone, Complex.arg_one]
  rw [h1]
  ring

theorem havParam_self (a b : ℝ) : havParam a b a b = 0 := by
  unfold havParam
  simp

theorem haversineKm_self (a b : ℝ) : haversineKm a b a b = 0 :=
  haversineKm_of_hav_zero (havParam_self a b)

theorem havParam_pole : havParam 90 0 90 90 = 0 := by
  unfold havParam
  have e1 : ((90:ℝ) - 90) * Real.pi / 180 / 2 = 0 := by ring
  have e2 : (90:ℝ) * Real.pi / 180 = Real.pi / 2 := by ring
  rw [e1, e2, Real.sin_zero, Real.cos_pi_div_two]
  ring

/-- C5 counterexample: the two distinct valid points `(90, 0)` and
`(90, 90)` (both at the north pole in coordinates) have haversine
distance exactly `0`, refuting the claimed `haversineKm(a,b) = 0 → a = b`
direction. -/
theorem haversine_zero_iff_counterexample :
    haversineKm 90 0 90 90 = 0 ∧ ((90:ℝ), (0:ℝ)) ≠ ((90:ℝ), (90:ℝ)) ∧
      |(90:ℝ)| ≤ 90 ∧ |(0:ℝ)| ≤ 180 ∧ |(90:ℝ)| ≤ 180 := by
  refine ⟨haversineKm_of_hav_zero havParam_pole, ?_, by norm_num, by norm_num, by norm_num⟩
  intro h
  have := congrArg Prod.snd h
  norm_num at this

theorem latRad_mem {l : ℝ} (h1 : -90 ≤ l) (h2 : l ≤ 90) :
    l * Real.pi / 180 ∈ Set.Icc (-(Real.pi / 2)) (Real.pi / 2) := by
  have hpi := Real.pi_pos
  constructor
  · nlinarith
  · nlinarith

theorem havParam_nonneg (mlat mlng olat olng : ℝ)
    (hm1 : -90 ≤ mlat) (hm2 : mlat ≤ 90) (ho1 : -90 ≤ olat) (ho2 : olat ≤ 90) :
    0 ≤ havParam mlat mlng olat olng := by
  unfold havParam
  have hcm := Real.cos_nonneg_of_mem_Icc (latRad_mem hm1 hm2)
  have hco := Real.cos_nonneg_of_mem_Icc (latRad_mem ho1 ho2)
  nlinarith [mul_self_nonneg (Real.sin ((olat - mlat) * Real.pi / 180 / 2)),
    mul_self_nonneg (Real.sin ((olng - mlng) * Real.pi / 180 / 2)),
    mul_nonneg hcm hco]

theorem havParam_le_one (mlat mlng olat olng : ℝ)
    (hm1 : -90 ≤ mlat) (hm2 : mlat ≤ 90) (ho1 : -90 ≤ olat) (ho2 : olat ≤ 90) :
    havParam mlat mlng olat olng ≤ 1 := by
  have hcm := Real.cos_nonneg_of_mem_Icc (latRad_mem hm1 hm2)
  have hco := Real.cos_nonneg_of_mem_Icc (latRad_mem ho1 ho2)
  set u := mlat * Real.pi / 180 with hu
  set v := olat * Real.pi / 180 with hv
  set Y := (olng - mlng) * Real.pi / 180 / 2 with hY
  have hrw : havParam mlat mlng olat olng
      = Real.sin ((v - u) / 2) ^ 2 + Real.cos u * Real.cos v * Real.sin Y ^ 2 := by
    unfold havParam
    rw [hu, hv, hY]
    ring_nf
  rw [hrw]
  have h1 : Real.sin ((v - u) / 2) ^ 2 = 1 / 2 - Real.cos (2 * ((v - u) / 2)) / 2 :=
    Real.sin_sq_eq_half_sub _
  have h2 : 2 * ((v - u) / 2) = v - u := by ring
  rw [h2] at h1
  have h3 : Real.cos (v - u) = Real.cos v * Real.cos u + Real.sin v * Real.sin u :=
    Real.cos_sub v u
  have h4 : Real.cos (u + v) = Real.cos u * Real.cos v - Real.sin u * Real.sin v :=
    Real.cos_add u v
  have h5 : Real.sin Y ^ 2 ≤ 1 := Real.sin_sq_le_one Y
  nlinarith [mul_nonneg (mul_nonneg hcm hco) (by linarith : (0:ℝ) ≤ 1 - Real.sin Y ^ 2),
    Real.cos_le_one (u + v)]

set_option maxHeartbeats 1000000 in
theorem haversineKm_eq_zero_interior {mlat mlng olat olng : ℝ}
    (hm1 : -90 < mlat) (hm2 : mlat < 90) (ho1 : -90 < olat) (ho2 : olat < 90)
    (hmg1 : -180 < mlng) (hmg2 : mlng ≤ 180) (hog1 : -180 < olng) (hog2 : olng ≤ 180) :
    haversineKm mlat mlng olat olng = 0 ↔ mlat = olat ∧ mlng = olng := by
  constructor
  · intro h
    have h0 := havParam_nonneg mlat mlng olat olng
      (by linarith) (by linarith) (by linarith) (by linarith)
    have h1 := havParam_le_one mlat mlng olat olng
      (by linarith) (by linarith) (by linarith) (by linarith)
    rw [haversineKm_eq_arcsin h0 h1] at h
    have harc : Real.arcsin (Real.sqrt (havParam mlat mlng olat olng)) = 0 := by linarith
    have hsq : Real.sqrt (havParam mlat mlng olat olng) = 0 :=
      Real.arcsin_eq_zero_iff.mp harc
    have hA : havParam mlat mlng olat olng = 0 := (Real.sqrt_eq_zero h0).mp hsq
    have hpi := Real.pi_pos
    have hcm : 0 < Real.cos (mlat * Real.pi / 180) := by
      apply Real.cos_pos_of_mem_Ioo
      constructor
      · nlinarith [mul_pos (by linarith : (0:ℝ) < mlat + 90) hpi]
      · nlinarith [mul_pos (by linarith : (0:ℝ) < 90 - mlat) hpi]
    have hco : 0 < Real.cos (olat * Real.pi / 180) := by
      apply Real.cos_pos_of_mem_Ioo
      constructor
      · nlinarith [mul_pos (by linarith : (0:ℝ) < olat + 90) hpi]
      · nlinarith [mul_pos (by linarith : (0:ℝ) < 90 - olat) hpi]
    unfold havParam at hA
    have hq1 : Real.sin ((olat - mlat) * Real.pi / 180 / 2) *
        Real.sin ((olat - mlat) * Real.pi / 180 / 2) = 0 := by
      nlinarith [mul_self_nonneg (Real.sin ((olat - mlat) * Real.pi / 180 / 2)),
        mul_nonneg (mul_nonneg hcm.le hco.le)
          (mul_self_nonneg (Real.sin ((olng - mlng) * Real.pi / 180 / 2)))]
    have hs1 : Real.sin ((olat - mlat) * Real.pi / 180 / 2) = 0 :=
      mul_self_eq_zero.mp hq1
    have hq2 : Real.sin ((olng - mlng) * Real.pi / 180 / 2) *
        Real.sin ((olng - mlng) * Real.pi / 180 / 2) = 0 := by
      nlinarith [mul_pos hcm hco,
        mul_self_nonneg (Real.sin ((olng - mlng) * Real.pi / 180 / 2))]
    have hs2 : Real.sin ((olng - mlng) * Real.pi / 180 / 2) = 0 :=
      mul_self_eq_zero.mp hq2
    have hx1 : (olat - mlat) * Real.pi / 180 / 2 = 0 := by
      have hb1 : -Real.pi < (olat - mlat) * Real.pi / 180 / 2 := by
        nlinarith [mul_pos (by linarith : (0:ℝ) < olat - mlat + 360) hpi]
      have hb2 : (olat - mlat) * Real.pi / 180 / 2 < Real.pi := by
        nlinarith [mul_pos (by linarith : (0:ℝ) < 360 - (olat - mlat)) hpi]
      exact (Real.sin_eq_zero_iff_of_lt_of_lt hb1 hb2).mp hs1
    have hx2 : (olng - mlng) * Real.pi / 180 / 2 = 0 := by
      have hb1 : -Real.pi < (olng - mlng) * Real.pi / 180 / 2 := by
        nlinarith [mul_pos (by linarith : (0:ℝ) < olng - mlng + 360) hpi]
      have hb2 : (olng - mlng) * Real.pi / 180 / 2 < Real.pi := by
        nlinarith [mul_pos (by linarith : (0:ℝ) < 360 - (olng - mlng)) hpi]
      exact (Real.sin_eq_zero_iff_of_lt_of_lt hb1 hb2).mp hs2
    have hlat : mlat = olat := by
      have := Real.pi_ne_zero
      have h' : (olat - mlat) * Real.pi = 0 := by linarith [hx1]
      rcases mul_eq_zero.mp h' with h'' | h''
      · linarith
      · exact absurd h'' this
    have hlng : mlng = olng := by
      have := Real.pi_ne_zero
      have h' : (olng - mlng) * Real.pi = 0 := by linarith [hx2]
      rcases mul_eq_zero.mp h' with h'' | h''
      · linarith
      · exact absurd h'' this
    exact ⟨hlat, hlng⟩
  · rintro ⟨h1, h2⟩
    subst h1
    subst h2
    exact haversineKm_self mlat mlng

/-- C5 (amended): `haversineKm` is symmetric for all inputs and vanishes
on equal points; the converse `haversineKm(a,b) = 0 → a = b` holds once
both latitudes lie strictly inside `(-90, 90)` and both longitudes lie in
`(-180, 180]` — it fails at the poles and across the antimeridian, where
distinct coordinate pairs denote the same physical point. -/
theorem haversine_symm_and_zero :
    (∀ mlat mlng olat olng : ℝ,
        haversineKm mlat mlng olat olng = haversineKm olat olng mlat mlng) ∧
    (∀ a b : ℝ, haversineKm a b a b = 0) ∧
    (∀ mlat mlng olat olng : ℝ, -90 < mlat → mlat < 90 → -90 < olat → olat < 90 →
      -180 < mlng → mlng ≤ 180 → -180 < olng → olng ≤ 180 →
      (haversineKm mlat mlng olat olng = 0 ↔ mlat = olat ∧ mlng = olng)) := by
  refine ⟨haversineKm_symm, haversineKm_self, ?_⟩
  intro mlat mlng olat olng hm1 hm2 ho1 ho2 hmg1 hmg2 hog1 hog2
  exact haversineKm_eq_zero_interior hm1 hm2 ho1 ho2 hmg1 hmg2 hog1 hog2

/-- Witness for the amended C5 at the origin and a nearby point. -/
theorem haversine_symm_and_zero_witness :
    ((-90:ℝ) < 10 ∧ (10:ℝ) < 90 ∧ (-90:ℝ) < 20 ∧ (20:ℝ) < 90 ∧
      (-180:ℝ) < 30 ∧ (30:ℝ) ≤ 180 ∧ (-180:ℝ) < 40 ∧ (40:ℝ) ≤ 180) ∧
      (haversineKm 10 30 20 40 = 0 ↔ (10:ℝ) = 20 ∧ (30:ℝ) = 40) :=
  ⟨by norm_num, haversine_symm_and_zero.2.2 10 30 20 40 (by norm_num) (by norm_num)
    (by norm_num) (by norm_num) (by norm_num) (by norm_num) (by norm_num) (by norm_num)⟩

end ClaimC5

section ClaimC3

theorem Home.outerScan_nil (thr : ℝ) (fuel : ℕ) (visited : List (Home.VesselData × Bool)) :
    Home.outerScan thr fuel visited [] = [] := by
  cases fuel <;> simp [Home.outerScan]

theorem Home.outerScan_cons_true (thr : ℝ) (fuel : ℕ)
    (visited rest : List (Home.VesselData × Bool)) (m : Home.VesselData) :
    Home.outerScan thr (fuel + 1) visited ((m, true) :: rest)
      = Home.outerScan thr fuel (visited ++ [(m, true)]) rest := by
  simp [Home.outerScan]

theorem Home.outerScan_cons_false (thr : ℝ) (fuel : ℕ)
    (visited rest : List (Home.VesselData × Bool)) (m : Home.VesselData) :
    Home.outerScan thr (fuel + 1) visited ((m, false) :: rest)
      = Home.recenter (Home.absorbScan m thr
            (Home.absorbScan m thr (Home.seedCluster m) visited).1 rest).1 ::
          Home.outerScan thr fuel
            ((Home.absorbScan m thr (Home.seedCluster m) visited).2 ++ [(m, true)])
            (Home.absorbScan m thr
              (Home.absorbScan m thr (Home.seedCluster m) visited).1 rest).2 := by
  simp [Home.outerScan]

theorem sqrt_three_mul_self : Real.sqrt 3 * Real.sqrt 3 = 3 :=
  Real.mul_self_sqrt (by norm_num)

theorem havParam_X_Y : havParam 30 0 (-30) 0 = 1 / 4 := by
  unfold havParam
  have e1 : ((-30:ℝ) - 30) * Real.pi / 180 / 2 = -(Real.pi / 6) := by ring
  have e2 : ((30:ℝ)) * Real.pi / 180 = Real.pi / 6 := by ring
  have e3 : ((-30:ℝ)) * Real.pi / 180 = -(Real.pi / 6) := by ring
  have e4 : ((0:ℝ) - 0) * Real.pi / 180 / 2 = 0 := by ring
  rw [e1, e2, e3, e4, Real.sin_neg, Real.cos_neg, Real.sin_zero,
    Real.sin_pi_div_six, Real.cos_pi_div_six]
  ring

theorem havParam_X_Z : havParam 30 0 (-30) 60 = 7 / 16 := by
  unfold havParam
  have e1 : ((-30:ℝ) - 30) * Real.pi / 180 / 2 = -(Real.pi / 6) := by ring
  have e2 : ((30:ℝ)) * Real.pi / 180 = Real.pi / 6 := by ring
  have e3 : ((-30:ℝ)) * Real.pi / 180 = -(Real.pi / 6) := by ring
  have e4 : ((60:ℝ) - 0) * Real.pi / 180 / 2 = Real.pi / 6 := by ring
  rw [e1, e2, e3, e4, Real.sin_neg, Real.cos_neg,
    Real.sin_pi_div_six, Real.cos_pi_div_six]
  linear_combination (1 / 16 : ℝ) * sqrt_three_mul_self

theorem havParam_X_W : havParam 30 0 (-30) (-60) = 7 / 16 := by
  unfold havParam
  have e1 : ((-30:ℝ) - 30) * Real.pi / 180 / 2 = -(Real.pi / 6) := by ring
  have e2 : ((30:ℝ)) * Real.pi / 180 = Real.pi / 6 := by ring
  have e3 : ((-30:ℝ)) * Real.pi / 180 = -(Real.pi / 6) := by ring
  have e4 : ((-60:ℝ) - 0) * Real.pi / 180 / 2 = -(Real.pi / 6) := by ring
  rw [e1, e2, e3, e4, Real.sin_neg, Real.cos_neg,
    Real.sin_pi_div_six, Real.cos_pi_div_six]
  linear_combination (1 / 16 : ℝ) * sqrt_three_mul_self

theorem havParam_Y_Z : havParam (-30) 0 (-30) 60 = 3 / 16 := by
  unfold havParam
  have e1 : ((-30:ℝ) - -30) * Real.pi / 180 / 2 = 0 := by ring
  have e3 : ((-30:ℝ)) * Real.pi / 180 = -(Real.pi / 6) := by ring
  have e4 : ((60:ℝ) - 0) * Real.pi / 180 / 2 = Real.pi / 6 := by ring
  rw [e1, e3, e4, Real.sin_zero, Real.cos_neg, Real.sin_pi_div_six, Real.cos_pi_div_six]
  linear_combination (1 / 16 : ℝ) * sqrt_three_mul_self

theorem havParam_Y_W : havParam (-30) 0 (-30) (-60) = 3 / 16 := by
  unfold havParam
  have e1 : ((-30:ℝ) - -30) * Real.pi / 180 / 2 = 0 := by ring
  have e3 : ((-30:ℝ)) * Real.pi / 180 = -(Real.pi / 6) := by ring
  have e4 : ((-60:ℝ) - 0) * Real.pi / 180 / 2 = -(Real.pi / 6) := by ring
  rw [e1, e3, e4, Real.sin_zero, Real.cos_neg, Real.sin_neg,
    Real.sin_pi_div_six, Real.cos_pi_div_six]
  linear_combination (1 / 16 : ℝ) * sqrt_three_mul_self

theorem havParam_Z_W : havParam (-30) 60 (-30) (-60) = 9 / 16 := by
  unfold havParam
  have e1 : ((-30:ℝ) - -30) * Real.pi / 180 / 2 = 0 := by ring
  have e3 : ((-30:ℝ)) * Real.pi / 180 = -(Real.pi / 6) := by ring
  have e4 : ((-60:ℝ) - 60) * Real.pi / 180 / 2 = -(Real.pi / 3) := by ring
  rw [e1, e3, e4, Real.sin_zero, Real.cos_neg, Real.sin_neg,
    Real.sin_pi_div_three, Real.cos_pi_div_six]
  linear_combination (Real.sqrt 3 * Real.sqrt 3 / 16 + 3 / 16 : ℝ) * sqrt_three_mul_self

theorem hav_cmp {a b c d t : ℝ} (hv : havParam a b c d = hv') (h0 : 0 ≤ hv') (h1 : hv' ≤ 1)
    (ht0 : 0 ≤ t) (ht1 : t ≤ 1) :
    (haversineKm a b c d < thresholdOf t ↔ hv' < t) := by
  rw [← hv] at h0 h1 ⊢
  exact haversineKm_lt_threshold_iff h0 h1 ht0 ht1

end ClaimC3

section ClaimC3b

/-- C3 counterexample: four fixes at 30°-grid coordinates and two radii
with `r1 ≤ r2` for which the smaller radius yields 2 clusters but the
larger yields 3 — the first seed steals the hub of what was a 3-fix
cluster, stranding its satellites. -/
theorem monotone_merging_counterexample :
    0 ≤ thresholdOf (7 / 32) ∧ thresholdOf (7 / 32) ≤ thresholdOf (11 / 32) ∧
      (Home.clusterMarkers
          [⟨30, 0, false, true⟩, ⟨-30, 0, false, true⟩,
            ⟨-30, 60, false, true⟩, ⟨-30, -60, false, true⟩]
          (thresholdOf (7 / 32))).length = 2 ∧
      (Home.clusterMarkers
          [⟨30, 0, false, true⟩, ⟨-30, 0, false, true⟩,
            ⟨-30, 60, false, true⟩, ⟨-30, -60, false, true⟩]
          (thresholdOf (11 / 32))).length = 3 := by
  have f1 : ¬ (haversineKm 30 0 (-30) 0 < thresholdOf (7 / 32)) := by
    rw [hav_cmp havParam_X_Y (by norm_num) (by norm_num) (by norm_num) (by norm_num)]
    norm_num
  have f2 : ¬ (haversineKm 30 0 (-30) 60 < thresholdOf (7 / 32)) := by
    rw [hav_cmp havParam_X_Z (by norm_num) (by norm_num) (by norm_num) (by norm_num)]
    norm_num
  have f3 : ¬ (haversineKm 30 0 (-30) (-60) < thresholdOf (7 / 32)) := by
    rw [hav_cmp havParam_X_W (by norm_num) (by norm_num) (by norm_num) (by norm_num)]
    norm_num
  have f4 : haversineKm (-30) 0 (-30) 60 < thresholdOf (7 / 32) := by
    rw [hav_cmp havParam_Y_Z (by norm_num) (by norm_num) (by norm_num) (by norm_num)]
    norm_num
  have f5 : haversineKm (-30) 0 (-30) (-60) < thresholdOf (7 / 32) := by
    rw [hav_cmp havParam_Y_W (by norm_num) (by norm_num) (by norm_num) (by norm_num)]
    norm_num
  have g1 : haversineKm 30 0 (-30) 0 < thresholdOf (11 / 32) := by
    rw [hav_cmp havParam_X_Y (by norm_num) (by norm_num) (by norm_num) (by norm_num)]
    norm_num
  have g2 : ¬ (haversineKm 30 0 (-30) 60 < thresholdOf (11 / 32)) := by
    rw [hav_cmp havParam_X_Z (by norm_num) (by norm_num) (by norm_num) (by norm_num)]
    norm_num
  have g3 : ¬ (haversineKm 30 0 (-30) (-60) < thresholdOf (11 / 32)) := by
    rw [hav_cmp havParam_X_W (by norm_num) (by norm_num) (by norm_num) (by norm_num)]
    norm_num
  have g4 : ¬ (haversineKm (-30) 60 (-30) (-60) < thresholdOf (11 / 32)) := by
    rw [hav_cmp havParam_Z_W (by norm_num) (by norm_num) (by norm_num) (by norm_num)]
    norm_num
  refine ⟨thresholdOf_nonneg, thresholdOf_mono (by norm_num), ?_, ?_⟩
  · simp only [Home.clusterMarkers, List.isEmpty_cons, Bool.false_eq_true, if_false,
      List.map_cons, List.map_nil, List.length_cons, List.length_nil]
    simp only [Home.outerScan, Home.absorbScan, Home.seedCluster, Home.absorb,
      f1, f2, f3, f4, f5, if_true, if_false, eq_self_iff_true, Bool.false_eq_true,
      Bool.true_eq_false, List.append_nil, List.nil_append, List.length_cons]
    norm_num
  · simp only [Home.clusterMarkers, List.isEmpty_cons, Bool.false_eq_true, if_false,
      List.map_cons, List.map_nil, List.length_cons, List.length_nil]
    simp only [Home.outerScan, Home.absorbScan, Home.seedCluster, Home.absorb,
      g1, g2, g3, g4, if_true, if_false, eq_self_iff_true, Bool.false_eq_true,
      Bool.true_eq_false, List.append_nil, List.nil_append, List.length_cons]
    norm_num

theorem Home.count_one (a : Home.VesselData) (r : ℝ) :
    (Home.clusterMarkers [a] r).length = 1 := by
  simp only [Home.clusterMarkers, List.isEmpty_cons, Bool.false_eq_true, if_false,
    List.map_cons, List.map_nil, List.length_cons, List.length_nil]
  simp only [Home.outerScan, Home.absorbScan, Home.seedCluster,
    if_true, if_false, eq_self_iff_true, Bool.false_eq_true, Bool.true_eq_false,
    List.append_nil, List.nil_append, List.length_cons]
  norm_num

theorem Home.count_two (a b : Home.VesselData) (r : ℝ) :
    (Home.clusterMarkers [a, b] r).length =
      if haversineKm a.lat a.lng b.lat b.lng < r then 1 else 2 := by
  by_cases h1 : haversineKm a.lat a.lng b.lat b.lng < r <;>
    · simp only [Home.clusterMarkers, List.isEmpty_cons, Bool.false_eq_true, if_false,
        List.map_cons, List.map_nil, List.length_cons, List.length_nil]
      simp only [Home.outerScan, Home.absorbScan, Home.seedCluster, Home.absorb,
        h1, if_true, if_false, eq_self_iff_true, Bool.false_eq_true, Bool.true_eq_false,
        List.append_nil, List.nil_append, List.length_cons]
      norm_num

theorem Home.count_three (a b c : Home.VesselData) (r : ℝ) :
    (Home.clusterMarkers [a, b, c] r).length =
      if haversineKm a.lat a.lng b.lat b.lng < r ∧ haversineKm a.lat a.lng c.lat c.lng < r
        then 1
      else if haversineKm a.lat a.lng b.lat b.lng < r ∨ haversineKm a.lat a.lng c.lat c.lng < r
        then 2
      else if haversineKm b.lat b.lng c.lat c.lng < r then 2
      else 3 := by
  by_cases h1 : haversineKm a.lat a.lng b.lat b.lng < r <;>
    by_cases h2 : haversineKm a.lat a.lng c.lat c.lng < r <;>
      by_cases h3 : haversineKm b.lat b.lng c.lat c.lng < r <;>
        · simp only [Home.clusterMarkers, List.isEmpty_cons, Bool.false_eq_true, if_false,
            List.map_cons, List.map_nil, List.length_cons, List.length_nil]
          simp only [Home.outerScan, Home.absorbScan, Home.seedCluster, Home.absorb,
            h1, h2, h3, if_true, if_false, eq_self_iff_true, Bool.false_eq_true,
            Bool.true_eq_false, List.append_nil, List.nil_append, List.length_cons]
          norm_num

theorem Home.count_three_le (a b c : Home.VesselData) (r : ℝ) :
    (Home.clusterMarkers [a, b, c] r).length ≤ 3 := by
  rw [Home.count_three]
  split_ifs <;> omega

theorem Home.count_three_eq_one (a b c : Home.VesselData) (r : ℝ)
    (h : haversineKm a.lat a.lng b.lat b.lng < r ∧ haversineKm a.lat a.lng c.lat c.lng < r) :
    (Home.clusterMarkers [a, b, c] r).length = 1 := by
  rw [Home.count_three, if_pos h]

theorem Home.count_three_ge_two (a b c : Home.VesselData) (r : ℝ)
    (h : ¬(haversineKm a.lat a.lng b.lat b.lng < r ∧
      haversineKm a.lat a.lng c.lat c.lng < r)) :
    2 ≤ (Home.clusterMarkers [a, b, c] r).length := by
  rw [Home.count_three, if_neg h]
  split_ifs <;> omega

theorem Home.count_three_le_two (a b c : Home.VesselData) (r : ℝ)
    (h : haversineKm a.lat a.lng b.lat b.lng < r ∨ haversineKm a.lat a.lng c.lat c.lng < r ∨
      haversineKm b.lat b.lng c.lat c.lng < r) :
    (Home.clusterMarkers [a, b, c] r).length ≤ 2 := by
  rw [Home.count_three]
  split_ifs with h1 h2 h3
  · omega
  · omega
  · omega
  · rcases h with h | h | h
    · exact absurd (Or.inl h) h2
    · exact absurd (Or.inr h) h2
    · exact absurd h h3

theorem Home.count_three_eq_three (a b c : Home.VesselData) (r : ℝ)
    (h1 : ¬ haversineKm a.lat a.lng b.lat b.lng < r)
    (h2 : ¬ haversineKm a.lat a.lng c.lat c.lng < r)
    (h3 : ¬ haversineKm b.lat b.lng c.lat c.lng < r) :
    (Home.clusterMarkers [a, b, c] r).length = 3 := by
  rw [Home.count_three, if_neg (fun hc => h1 hc.1),
    if_neg (fun hc => hc.elim h1 h2), if_neg h3]

/-- C3 (amended): monotone merging holds for fix sets of at most three
fixes — for `r1 ≤ r2` the larger radius never yields more clusters.  For
four or more fixes it fails (see the counterexample): absorption is
seed-relative, so a larger radius can re-seed the iteration
differently. -/
theorem monotone_merging_small (ms : List Home.VesselData) (hlen : ms.length ≤ 3)
    (r1 r2 : ℝ) (h0 : 0 ≤ r1) (hr : r1 ≤ r2) :
    (Home.clusterMarkers ms r2).length ≤ (Home.clusterMarkers ms r1).length := by
  match ms, hlen with
  | [], _ => simp [Home.clusterMarkers]
  | [a], _ => rw [Home.count_one, Home.count_one]
  | [a, b], _ =>
    by_cases hb1 : haversineKm a.lat a.lng b.lat b.lng < r1
    · rw [Home.count_two, Home.count_two, if_pos (lt_of_lt_of_le hb1 hr), if_pos hb1]
    · rw [Home.count_two, Home.count_two, if_neg hb1]
      split_ifs <;> omega
  | [a, b, c], _ =>
    by_cases hA : haversineKm a.lat a.lng b.lat b.lng < r1 ∧
        haversineKm a.lat a.lng c.lat c.lng < r1
    · rw [Home.count_three_eq_one a b c r2
        ⟨lt_of_lt_of_le hA.1 hr, lt_of_lt_of_le hA.2 hr⟩,
        Home.count_three_eq_one a b c r1 hA]
    · by_cases hB : haversineKm a.lat a.lng b.lat b.lng < r1 ∨
          haversineKm a.lat a.lng c.lat c.lng < r1 ∨
          haversineKm b.lat b.lng c.lat c.lng < r1
      · have hL : (Home.clusterMarkers [a, b, c] r2).length ≤ 2 := by
          apply Home.count_three_le_two
          rcases hB with h | h | h
          · exact Or.inl (lt_of_lt_of_le h hr)
          · exact Or.inr (Or.inl (lt_of_lt_of_le h hr))
          · exact Or.inr (Or.inr (lt_of_lt_of_le h hr))
        have hR : 2 ≤ (Home.clusterMarkers [a, b, c] r1).length :=
          Home.count_three_ge_two a b c r1 hA
        omega
      · push_neg at hB
        rw [Home.count_three_eq_three a b c r1 (not_lt.mpr hB.1)
          (not_lt.mpr hB.2.1) (not_lt.mpr hB.2.2)]
        exact Home.count_three_le a b c r2

/-- Witness for the amended C3 at a concrete three-fix input. -/
theorem monotone_merging_small_witness :
    (([⟨0, 0, false, true⟩, ⟨10, 10, false, true⟩, ⟨20, 20, false, true⟩] :
        List Home.VesselData).length ≤ 3 ∧ (0:ℝ) ≤ 1 ∧ (1:ℝ) ≤ 2) ∧
      (Home.clusterMarkers [⟨0, 0, false, true⟩, ⟨10, 10, false, true⟩,
          ⟨20, 20, false, true⟩] 2).length ≤
        (Home.clusterMarkers [⟨0, 0, false, true⟩, ⟨10, 10, false, true⟩,
          ⟨20, 20, false, true⟩] 1).length :=
  ⟨⟨by norm_num, by norm_num, by norm_num⟩,
    monotone_merging_small _ (by norm_num) 1 2 (by norm_num) (by norm_num)⟩

end ClaimC3b

section DashboardLemmas

namespace Dashboard

theorem absorbScan_snd_length' (seed : VesselData) (thr : ℝ) :
    ∀ (l : List (VesselData × Bool)) (cl : ClusterData),
      ((absorbScan seed thr cl l).2).length = l.length := by
  intro l
  induction l with
  | nil => intro cl; simp [absorbScan]
  | cons e rest ih =>
    intro cl
    obtain ⟨o, done⟩ := e
    cases done with
    | true => simp [absorbScan, ih]
    | false =>
      by_cases hreg : cl.registered ≠ o.registered
      · simp [absorbScan, hreg, ih]
      · by_cases hlt : haversineKm seed.lat seed.lng o.lat o.lng < thr
        · simp [absorbScan, hreg, hlt, ih]
        · simp [absorbScan, hreg, hlt, ih]

theorem absorbScan_snd_map_fst (seed : VesselData) (thr : ℝ) :
    ∀ (l : List (VesselData × Bool)) (cl : ClusterData),
      ((absorbScan seed thr cl l).2).map Prod.fst = l.map Prod.fst := by
  intro l
  induction l with
  | nil => intro cl; simp [absorbScan]
  | cons e rest ih =>
    intro cl
    obtain ⟨o, done⟩ := e
    cases done with
    | true => simp [absorbScan, ih]
    | false =>
      by_cases hreg : cl.registered ≠ o.registered
      · simp [absorbScan, hreg, ih]
      · by_cases hlt : haversineKm seed.lat seed.lng o.lat o.lng < thr
        · simp [absorbScan, hreg, hlt, ih]
        · simp [absorbScan, hreg, hlt, ih]

theorem absorbScan_fst_markers' (seed : VesselData) (thr : ℝ) :
    ∀ (l : List (VesselData × Bool)) (cl : ClusterData),
      ∃ extra, ((absorbScan seed thr cl l).1).markers = cl.markers ++ extra := by
  intro l
  induction l with
  | nil => intro cl; exact ⟨[], by simp [absorbScan]⟩
  | cons e rest ih =>
    intro cl
    obtain ⟨o, done⟩ := e
    cases done with
    | true =>
      obtain ⟨extra, hx⟩ := ih cl
      exact ⟨extra, by simpa [absorbScan] using hx⟩
    | false =>
      by_cases hreg : cl.registered ≠ o.registered
      · obtain ⟨extra, hx⟩ := ih cl
        exact ⟨extra, by simpa [absorbScan, hreg] using hx⟩
      · by_cases hlt : haversineKm seed.lat seed.lng o.lat o.lng < thr
        · obtain ⟨extra, hx⟩ := ih (absorb cl o (haversineKm seed.lat seed.lng o.lat o.lng))
          refine ⟨o :: extra, ?_⟩
          simp only [absorbScan, hreg, hlt, if_true, if_false, Bool.false_eq_true]
          simpa [absorb] using hx
        · obtain ⟨extra, hx⟩ := ih cl
          exact ⟨extra, by simpa [absorbScan, hreg, hlt] using hx⟩

theorem absorbScan_fst_pos' (seed : VesselData) (thr : ℝ) :
    ∀ (l : List (VesselData × Bool)) (cl : ClusterData),
      ((absorbScan seed thr cl l).1).lat = cl.lat ∧
        ((absorbScan seed thr cl l).1).lng = cl.lng := by
  intro l
  induction l with
  | nil => intro cl; simp [absorbScan]
  | cons e rest ih =>
    intro cl
    obtain ⟨o, done⟩ := e
    cases done with
    | true => simpa [absorbScan] using ih cl
    | false =>
      by_cases hreg : cl.registered ≠ o.registered
      · simpa [absorbScan, hreg] using ih cl
      · by_cases hlt : haversineKm seed.lat seed.lng o.lat o.lng < thr
        · have := ih (absorb cl o (haversineKm seed.lat seed.lng o.lat o.lng))
          simpa [absorbScan, hreg, hlt, absorb] using this
        · simpa [absorbScan, hreg, hlt] using ih cl

theorem absorbScan_fst_registered (seed : VesselData) (thr : ℝ) :
    ∀ (l : List (VesselData × Bool)) (cl : ClusterData),
      ((absorbScan seed thr cl l).1).registered = cl.registered := by
  intro l
  induction l with
  | nil => intro cl; simp [absorbScan]
  | cons e rest ih =>
    intro cl
    obtain ⟨o, done⟩ := e
    cases done with
    | true => simpa [absorbScan] using ih cl
    | false =>
      by_cases hreg : cl.registered ≠ o.registered
      · simpa [absorbScan, hreg] using ih cl
      · by_cases hlt : haversineKm seed.lat seed.lng o.lat o.lng < thr
        · have heq : cl.registered = o.registered := not_ne_iff.mp hreg
          have habs : (absorb cl o (haversineKm seed.lat seed.lng o.lat o.lng)).registered
              = cl.registered := by
            simp [absorb, heq, Bool.and_self]
          have := ih (absorb cl o (haversineKm seed.lat seed.lng o.lat o.lng))
          simp only [absorbScan, hreg, hlt, if_true, if_false, Bool.false_eq_true]
          rw [this, habs]
        · simpa [absorbScan, hreg, hlt] using ih cl

theorem absorbScan_members_flag (seed : VesselData) (thr : ℝ) :
    ∀ (l : List (VesselData × Bool)) (cl : ClusterData),
      (∀ m ∈ cl.markers, m.registered = cl.registered) →
      ∀ m ∈ ((absorbScan seed thr cl l).1).markers,
        m.registered = ((absorbScan seed thr cl l).1).registered := by
  intro l
  induction l with
  | nil => intro cl h; simpa [absorbScan] using h
  | cons e rest ih =>
    intro cl h
    obtain ⟨o, done⟩ := e
    cases done with
    | true => simpa [absorbScan] using ih cl h
    | false =>
      by_cases hreg : cl.registered ≠ o.registered
      · simpa [absorbScan, hreg] using ih cl h
      · by_cases hlt : haversineKm seed.lat seed.lng o.lat o.lng < thr
        · have heq : cl.registered = o.registered := not_ne_iff.mp hreg
          have h2 : ∀ m ∈ (absorb cl o (haversineKm seed.lat seed.lng o.lat o.lng)).markers,
              m.registered = (absorb cl o (haversineKm seed.lat seed.lng o.lat o.lng)).registered := by
            intro m hm
            have hr : (absorb cl o (haversineKm seed.lat seed.lng o.lat o.lng)).registered
                = cl.registered := by simp [absorb, heq, Bool.and_self]
            rw [hr]
            rcases (by simpa [absorb] using hm : m ∈ cl.markers ∨ m = o) with hm' | hm'
            · exact h m hm'
            · rw [hm', ← heq]
          simpa [absorbScan, hreg, hlt] using
            ih (absorb cl o (haversineKm seed.lat seed.lng o.lat o.lng)) h2
        · simpa [absorbScan, hreg, hlt] using ih cl h

theorem recenter_markers' (cl : ClusterData) : (recenter cl).markers = cl.markers := by
  unfold recenter
  split <;> rfl

theorem recenter_registered (cl : ClusterData) : (recenter cl).registered = cl.registered := by
  unfold recenter
  split <;> rfl

theorem recenter_single' (cl : ClusterData) (h : ¬ 1 < cl.markers.length) :
    recenter cl = cl := by
  unfold recenter
  simp [h]

theorem outerScan_nil' (p : Params) (fuel : ℕ) (visited : List (VesselData × Bool)) :
    outerScan p fuel visited [] = [] := by
  cases fuel <;> simp [outerScan]

theorem outerScan_cons_true' (p : Params) (fuel : ℕ)
    (visited rest : List (VesselData × Bool)) (m : VesselData) :
    outerScan p (fuel + 1) visited ((m, true) :: rest)
      = outerScan p fuel (visited ++ [(m, true)]) rest := by
  simp [outerScan]

theorem outerScan_cons_skip (p : Params) (fuel : ℕ)
    (visited rest : List (VesselData × Bool)) (m : VesselData)
    (hs : seedSkipped p m) :
    outerScan p (fuel + 1) visited ((m, false) :: rest)
      = outerScan p fuel (visited ++ [(m, false)]) rest := by
  simp [outerScan, hs]

theorem outerScan_cons_seed (p : Params) (fuel : ℕ)
    (visited rest : List (VesselData × Bool)) (m : VesselData)
    (hs : ¬ seedSkipped p m) :
    outerScan p (fuel + 1) visited ((m, false) :: rest)
      = recenter (absorbScan m (clusterThreshold p)
            (absorbScan m (clusterThreshold p) (seedCluster m) visited).1 rest).1 ::
          outerScan p fuel
            ((absorbScan m (clusterThreshold p) (seedCluster m) visited).2 ++ [(m, true)])
            (absorbScan m (clusterThreshold p)
              (absorbScan m (clusterThreshold p) (seedCluster m) visited).1 rest).2 := by
  simp [outerScan, hs]

theorem outerScan_clusters (p : Params) :
    ∀ (fuel : ℕ) (visited toVisit : List (VesselData × Bool)) (c : ClusterData),
      c ∈ outerScan p fuel visited toVisit →
      ∃ (cl : ClusterData) (seed : VesselData) (extra : List VesselData),
        c = recenter cl ∧ cl.markers = seed :: extra ∧ cl.lat = seed.lat ∧
          cl.lng = seed.lng ∧ cl.registered = seed.registered ∧
          (∀ m ∈ cl.markers, m.registered = cl.registered) ∧
          ¬ seedSkipped p seed := by
  intro fuel
  induction fuel with
  | zero =>
    intro visited toVisit c hc
    simp [outerScan] at hc
  | succ fuel ih =>
    intro visited toVisit c hc
    cases toVisit with
    | nil => simp [outerScan] at hc
    | cons e rest =>
      obtain ⟨m, done⟩ := e
      cases done with
      | true =>
        rw [outerScan_cons_true'] at hc
        exact ih _ rest c hc
      | false =>
        by_cases hs : seedSkipped p m
        · rw [outerScan_cons_skip p fuel visited rest m hs] at hc
          exact ih _ rest c hc
        · rw [outerScan_cons_seed p fuel visited rest m hs] at hc
          rcases List.mem_cons.mp hc with hc1 | hc2
          · set cl1 := (absorbScan m (clusterThreshold p) (seedCluster m) visited).1 with hcl1
            set cl2 := (absorbScan m (clusterThreshold p) cl1 rest).1 with hcl2
            obtain ⟨e1, he1⟩ := absorbScan_fst_markers' m (clusterThreshold p) visited
              (seedCluster m)
            obtain ⟨e2, he2⟩ := absorbScan_fst_markers' m (clusterThreshold p) rest cl1
            have hmark : cl2.markers = m :: (e1 ++ e2) := by
              rw [he2, he1]
              simp [seedCluster]
            have hlat : cl2.lat = m.lat := by
              have p2 := absorbScan_fst_pos' m (clusterThreshold p) rest cl1
              have p1 := absorbScan_fst_pos' m (clusterThreshold p) visited (seedCluster m)
              rw [p2.1, p1.1]
              simp [seedCluster]
            have hlng : cl2.lng = m.lng := by
              have p2 := absorbScan_fst_pos' m (clusterThreshold p) rest cl1
              have p1 := absorbScan_fst_pos' m (clusterThreshold p) visited (seedCluster m)
              rw [p2.2, p1.2]
              simp [seedCluster]
            have hreg : cl2.registered = m.registered := by
              rw [absorbScan_fst_registered, absorbScan_fst_registered]
              simp [seedCluster]
            have hflag : ∀ mm ∈ cl2.markers, mm.registered = cl2.registered := by
              apply absorbScan_members_flag
              apply absorbScan_members_flag
              intro mm hmm
              simp [seedCluster] at hmm ⊢
              rw [hmm]
            exact ⟨cl2, m, e1 ++ e2, hc1, hmark, hlat, hlng, hreg, hflag, hs⟩
          · exact ih _ _ c hc2

end Dashboard

end DashboardLemmas

section ClaimC10

/-- C10: Cluster homogeneity — in the dashboard clustering a fix is
absorbed only if its `registered` flag equals the cluster's, so every
member of a produced cluster carries the cluster's `registered` flag and
no mixed tracked/untracked cluster is ever produced. -/
theorem cluster_homogeneity (p : Dashboard.Params) (ms : List Dashboard.VesselData) :
    ∀ c ∈ Dashboard.clusterMarkers p ms,
      (∀ m ∈ c.markers, m.registered = c.registered) ∧
      (∀ m1 ∈ c.markers, ∀ m2 ∈ c.markers, m1.registered = m2.registered) := by
  intro c hc
  unfold Dashboard.clusterMarkers at hc
  by_cases hms : ms.isEmpty
  · rw [if_pos hms] at hc
    simp at hc
  · rw [if_neg hms] at hc
    obtain ⟨cl, seed, extra, hceq, hmark, _, _, _, hflag, _⟩ :=
      Dashboard.outerScan_clusters p ms.length [] _ c hc
    have hcm : c.markers = cl.markers := by rw [hceq, Dashboard.recenter_markers']
    have hcr : c.registered = cl.registered := by rw [hceq, Dashboard.recenter_registered]
    constructor
    · intro m hm
      rw [hcr]
      exact hflag m (hcm ▸ hm)
    · intro m1 h1 m2 h2
      rw [hflag m1 (hcm ▸ h1), hflag m2 (hcm ▸ h2)]

theorem Dashboard.singleton_run_eval :
    Dashboard.clusterMarkers ⟨true, true, 0, 10, 0, 0, 1, false⟩ [⟨0, 0, true, 5⟩]
      = [Dashboard.seedCluster ⟨0, 0, true, 5⟩] := by
  have hns : ¬ Dashboard.seedSkipped ⟨true, true, 0, 10, 0, 0, 1, false⟩ ⟨0, 0, true, 5⟩ := by
    simp [Dashboard.seedSkipped]
  simp only [Dashboard.clusterMarkers, List.isEmpty_cons, Bool.false_eq_true, if_false,
    List.map_cons, List.map_nil, List.length_cons, List.length_nil]
  rw [Dashboard.outerScan_cons_seed _ _ _ _ _ hns]
  simp only [Dashboard.absorbScan]
  rw [Dashboard.outerScan_nil',
    Dashboard.recenter_single' _ (by simp [Dashboard.seedCluster])]

/-- Witness for C10 at a concrete singleton run. -/
theorem cluster_homogeneity_witness :
    Dashboard.seedCluster ⟨0, 0, true, 5⟩ ∈
      Dashboard.clusterMarkers ⟨true, true, 0, 10, 0, 0, 1, false⟩ [⟨0, 0, true, 5⟩] ∧
    ((∀ m ∈ (Dashboard.seedCluster ⟨0, 0, true, 5⟩).markers,
        m.registered = (Dashboard.seedCluster ⟨0, 0, true, 5⟩).registered) ∧
      (∀ m1 ∈ (Dashboard.seedCluster ⟨0, 0, true, 5⟩).markers,
        ∀ m2 ∈ (Dashboard.seedCluster ⟨0, 0, true, 5⟩).markers,
          m1.registered = m2.registered)) := by
  have hmem : Dashboard.seedCluster ⟨0, 0, true, 5⟩ ∈
      Dashboard.clusterMarkers ⟨true, true, 0, 10, 0, 0, 1, false⟩ [⟨0, 0, true, 5⟩] := by
    rw [Dashboard.singleton_run_eval]
    simp
  exact ⟨hmem, cluster_homogeneity _ _ _ hmem⟩

end ClaimC10

section ClaimC4

theorem Dashboard.outerScan_all_done (p : Dashboard.Params) :
    ∀ (fuel : ℕ) (visited toVisit : List (Dashboard.VesselData × Bool)),
      (∀ e ∈ toVisit, e.2 = true) → Dashboard.outerScan p fuel visited toVisit = [] := by
  intro fuel
  induction fuel with
  | zero => intro visited toVisit _; simp [Dashboard.outerScan]
  | succ fuel ih =>
    intro visited toVisit hall
    cases toVisit with
    | nil => simp [Dashboard.outerScan]
    | cons e rest =>
      obtain ⟨m, done⟩ := e
      have hdone : done = true := hall (m, done) (by simp)
      subst hdone
      rw [Dashboard.outerScan_cons_true']
      exact ih _ rest (fun e he => hall e (by simp [he]))

theorem Dashboard.pair_run_eval :
    Dashboard.clusterMarkers ⟨true, false, 0, 10, 0, 0, 1, false⟩
        [⟨0, 0, true, 5⟩, ⟨0, 0, true, 20⟩]
      = [Dashboard.recenter (Dashboard.absorb (Dashboard.seedCluster ⟨0, 0, true, 5⟩)
          ⟨0, 0, true, 20⟩ (haversineKm 0 0 0 0))] := by
  have hns : ¬ Dashboard.seedSkipped ⟨true, false, 0, 10, 0, 0, 1, false⟩ ⟨0, 0, true, 5⟩ := by
    simp [Dashboard.seedSkipped]
  have hd : haversineKm 0 0 0 0
      < Dashboard.clusterThreshold ⟨true, false, 0, 10, 0, 0, 1, false⟩ := by
    rw [haversineKm_self]
    simp [Dashboard.clusterThreshold]
  simp only [Dashboard.clusterMarkers, List.isEmpty_cons, Bool.false_eq_true, if_false,
    List.map_cons, List.map_nil, List.length_cons, List.length_nil]
  rw [Dashboard.outerScan_cons_seed _ _ _ _ _ hns]
  simp only [Dashboard.absorbScan, Dashboard.seedCluster, hd, if_true, if_false,
    eq_self_iff_true, Bool.false_eq_true, Bool.true_eq_false, ne_eq, not_true_eq_false,
    List.append_nil, List.nil_append]
  rw [Dashboard.outerScan_all_done _ _ _ _ (by simp)]

/-- C4 counterexample: with window `[0, 10]` the fix at time `20` is
outside the window yet is absorbed as a member of the returned cluster —
the dashboard applies the window test only to seeds, never to absorbed
members. -/
theorem time_window_counterexample :
    ∃ c ∈ Dashboard.clusterMarkers ⟨true, false, 0, 10, 0, 0, 1, false⟩
        [⟨0, 0, true, 5⟩, ⟨0, 0, true, 20⟩],
      (⟨0, 0, true, 20⟩ : Dashboard.VesselData) ∈ c.markers ∧
        ¬ ((0:ℤ) ≤ (⟨0, 0, true, 20⟩ : Dashboard.VesselData).time ∧
            (⟨0, 0, true, 20⟩ : Dashboard.VesselData).time ≤ 10) := by
  refine ⟨Dashboard.recenter (Dashboard.absorb (Dashboard.seedCluster ⟨0, 0, true, 5⟩)
    ⟨0, 0, true, 20⟩ (haversineKm 0 0 0 0)), ?_, ?_, ?_⟩
  · rw [Dashboard.pair_run_eval]
    simp
  · rw [Dashboard.recenter_markers']
    simp [Dashboard.absorb, Dashboard.seedCluster]
  · intro h
    have := h.2
    norm_num at this

/-- C4 (amended): the dashboard time-window filter applies only to
cluster seeds — every returned cluster's seed (its first member) has a
timestamp inside `[timeL, timeR]`, but an absorbed member's timestamp
may fall outside the window (see the counterexample). -/
theorem time_window_seed_only (p : Dashboard.Params) (ms : List Dashboard.VesselData) :
    ∀ c ∈ Dashboard.clusterMarkers p ms,
      ∃ s rest, c.markers = s :: rest ∧ p.timeL ≤ s.time ∧ s.time ≤ p.timeR := by
  intro c hc
  unfold Dashboard.clusterMarkers at hc
  by_cases hms : ms.isEmpty
  · rw [if_pos hms] at hc
    simp at hc
  · rw [if_neg hms] at hc
    obtain ⟨cl, seed, extra, hceq, hmark, _, _, _, _, hns⟩ :=
      Dashboard.outerScan_clusters p ms.length [] _ c hc
    refine ⟨seed, extra, ?_, ?_, ?_⟩
    · rw [hceq, Dashboard.recenter_markers', hmark]
    · unfold Dashboard.seedSkipped at hns
      push_neg at hns
      exact hns.2.2.1.1
    · unfold Dashboard.seedSkipped at hns
      push_neg at hns
      exact hns.2.2.1.2

/-- Witness for the amended C4 at a concrete singleton run. -/
theorem time_window_seed_only_witness :
    Dashboard.seedCluster ⟨0, 0, true, 5⟩ ∈
      Dashboard.clusterMarkers ⟨true, true, 0, 10, 0, 0, 1, false⟩ [⟨0, 0, true, 5⟩] ∧
    ∃ s rest, (Dashboard.seedCluster ⟨0, 0, true, 5⟩).markers = s :: rest ∧
      (⟨true, true, 0, 10, 0, 0, 1, false⟩ : Dashboard.Params).timeL ≤ s.time ∧
      s.time ≤ (⟨true, true, 0, 10, 0, 0, 1, false⟩ : Dashboard.Params).timeR := by
  have hmem : Dashboard.seedCluster ⟨0, 0, true, 5⟩ ∈
      Dashboard.clusterMarkers ⟨true, true, 0, 10, 0, 0, 1, false⟩ [⟨0, 0, true, 5⟩] := by
    rw [Dashboard.singleton_run_eval]
    simp
  exact ⟨hmem, time_window_seed_only _ _ _ hmem⟩

end ClaimC4

section ClaimC8

theorem Dashboard.repScan_spec (clat clng : ℝ) :
    ∀ (l : List Dashboard.VesselData) (best : ℝ × ℝ) (mndis : EReal),
      ((Dashboard.repScan clat clng l best mndis).1 = best ∧
        (Dashboard.repScan clat clng l best mndis).2 = mndis ∧
        ∀ m ∈ l, mndis ≤ (haversineKm m.lat m.lng clat clng : EReal)) ∨
      (∃ mr ∈ l, (Dashboard.repScan clat clng l best mndis).1 = (mr.lat, mr.lng) ∧
        (Dashboard.repScan clat clng l best mndis).2
          = (haversineKm mr.lat mr.lng clat clng : EReal) ∧
        (∀ m ∈ l, (Dashboard.repScan clat clng l best mndis).2
          ≤ (haversineKm m.lat m.lng clat clng : EReal)) ∧
        (Dashboard.repScan clat clng l best mndis).2 < mndis) := by
  intro l
  induction l with
  | nil =>
    intro best mndis
    left
    simp [Dashboard.repScan]
  | cons m rest ih =>
    intro best mndis
    by_cases hlt : (haversineKm m.lat m.lng clat clng : EReal) < mndis
    · have hstep : Dashboard.repScan clat clng (m :: rest) best mndis
          = Dashboard.repScan clat clng rest (m.lat, m.lng)
            (haversineKm m.lat m.lng clat clng) := by
        simp [Dashboard.repScan, hlt]
      rw [hstep]
      rcases ih (m.lat, m.lng) (haversineKm m.lat m.lng clat clng) with
        ⟨h1, h2, h3⟩ | ⟨mr, hmr, h1, h2, h3, h4⟩
      · right
        refine ⟨m, by simp, h1, h2, ?_, by rw [h2]; exact hlt⟩
        intro m2 hm2
        rcases List.mem_cons.mp hm2 with hm2' | hm2'
        · rw [h2, hm2']
        · rw [h2]
          exact h3 m2 hm2'
      · right
        refine ⟨mr, by simp [hmr], h1, h2, ?_, lt_trans h4 hlt⟩
        intro m2 hm2
        rcases List.mem_cons.mp hm2 with hm2' | hm2'
        · rw [hm2']
          exact le_of_lt h4
        · exact h3 m2 hm2'
    · have hstep : Dashboard.repScan clat clng (m :: rest) best mndis
          = Dashboard.repScan clat clng rest best mndis := by
        simp [Dashboard.repScan, hlt]
      rw [hstep]
      rcases ih best mndis with ⟨h1, h2, h3⟩ | ⟨mr, hmr, h1, h2, h3, h4⟩
      · left
        refine ⟨h1, h2, ?_⟩
        intro m2 hm2
        rcases List.mem_cons.mp hm2 with hm2' | hm2'
        · rw [hm2']
          exact not_lt.mp hlt
        · exact h3 m2 hm2'
      · right
        refine ⟨mr, by simp [hmr], h1, h2, ?_, h4⟩
        intro m2 hm2
        rcases List.mem_cons.mp hm2 with hm2' | hm2'
        · rw [hm2']
          exact le_trans (le_of_lt h4) (not_lt.mp hlt)
        · exact h3 m2 hm2'

theorem Dashboard.recenter_multi (cl : Dashboard.ClusterData) (h : 1 < cl.markers.length) :
    (Dashboard.recenter cl).lat
        = (Dashboard.repScan (Dashboard.centroid cl.markers).1
            (Dashboard.centroid cl.markers).2 cl.markers (cl.lat, cl.lng) ⊤).1.1 ∧
      (Dashboard.recenter cl).lng
        = (Dashboard.repScan (Dashboard.centroid cl.markers).1
            (Dashboard.centroid cl.markers).2 cl.markers (cl.lat, cl.lng) ⊤).1.2 := by
  unfold Dashboard.recenter
  rw [if_pos h]
  simp

/-- C8: Representative point — every dashboard cluster with two or more
members is displayed at the position of one of its members, namely a
member whose haversine distance to the spherical centroid of the members
is minimal; a single-member cluster is displayed at its seed's own
position. -/
theorem representativePoint_min (p : Dashboard.Params) (ms : List Dashboard.VesselData) :
    (∀ c ∈ Dashboard.clusterMarkers p ms, 1 < c.markers.length →
      ∃ mr ∈ c.markers, c.lat = mr.lat ∧ c.lng = mr.lng ∧
        ∀ m ∈ c.markers,
          haversineKm mr.lat mr.lng (Dashboard.centroid c.markers).1
              (Dashboard.centroid c.markers).2
            ≤ haversineKm m.lat m.lng (Dashboard.centroid c.markers).1
              (Dashboard.centroid c.markers).2) ∧
    (∀ c ∈ Dashboard.clusterMarkers p ms, ∀ m, c.markers = [m] →
      c.lat = m.lat ∧ c.lng = m.lng) := by
  have hshape : ∀ c ∈ Dashboard.clusterMarkers p ms,
      ∃ (cl : Dashboard.ClusterData) (seed : Dashboard.VesselData)
        (extra : List Dashboard.VesselData),
        c = Dashboard.recenter cl ∧ cl.markers = seed :: extra ∧ cl.lat = seed.lat ∧
          cl.lng = seed.lng := by
    intro c hc
    unfold Dashboard.clusterMarkers at hc
    by_cases hms : ms.isEmpty
    · rw [if_pos hms] at hc
      simp at hc
    · rw [if_neg hms] at hc
      obtain ⟨cl, seed, extra, hceq, hmark, hlat, hlng, _, _, _⟩ :=
        Dashboard.outerScan_clusters p ms.length [] _ c hc
      exact ⟨cl, seed, extra, hceq, hmark, hlat, hlng⟩
  constructor
  · intro c hc hlen
    obtain ⟨cl, seed, extra, hceq, hmark, hlat, hlng⟩ := hshape c hc
    have hcm : c.markers = cl.markers := by rw [hceq, Dashboard.recenter_markers']
    have hlen2 : 1 < cl.markers.length := by rw [← hcm]; exact hlen
    have hmulti := Dashboard.recenter_multi cl hlen2
    rcases Dashboard.repScan_spec (Dashboard.centroid cl.markers).1
        (Dashboard.centroid cl.markers).2 cl.markers (cl.lat, cl.lng) ⊤ with
      ⟨_, _, h3⟩ | ⟨mr, hmr, h1, h2, h3, _⟩
    · exfalso
      have hmem : seed ∈ cl.markers := by rw [hmark]; simp
      have := h3 seed hmem
      exact absurd this (not_le.mpr (EReal.coe_lt_top _))
    · refine ⟨mr, by rw [hcm]; exact hmr, ?_, ?_, ?_⟩
      · rw [hceq, hmulti.1, h1]
      · rw [hceq, hmulti.2, h1]
      · intro m hm
        have hthis := h3 m (by rw [← hcm]; exact hm)
        rw [h2] at hthis
        rw [hcm]
        exact_mod_cast hthis
  · intro c hc m hme
    obtain ⟨cl, seed, extra, hceq, hmark, hlat, hlng⟩ := hshape c hc
    have hcm : c.markers = cl.markers := by rw [hceq, Dashboard.recenter_markers']
    have hclm : cl.markers = [m] := by rw [← hcm]; exact hme
    have hsingle : Dashboard.recenter cl = cl :=
      Dashboard.recenter_single' cl (by rw [hclm]; simp)
    have hseed : seed = m := by
      rw [hclm] at hmark
      exact ((List.cons.injEq _ _ _ _).mp hmark.symm).1
    rw [hceq, hsingle, hlat, hlng, hseed]
    exact ⟨rfl, rfl⟩

/-- Witness for C8 at a concrete two-member run (two coincident fixes
absorbed into one cluster). -/
theorem representativePoint_min_witness :
    Dashboard.recenter (Dashboard.absorb (Dashboard.seedCluster ⟨0, 0, true, 5⟩)
        ⟨0, 0, true, 20⟩ (haversineKm 0 0 0 0)) ∈
      Dashboard.clusterMarkers ⟨true, false, 0, 10, 0, 0, 1, false⟩
        [⟨0, 0, true, 5⟩, ⟨0, 0, true, 20⟩] ∧
    1 < (Dashboard.recenter (Dashboard.absorb (Dashboard.seedCluster ⟨0, 0, true, 5⟩)
        ⟨0, 0, true, 20⟩ (haversineKm 0 0 0 0))).markers.length ∧
    ∃ mr ∈ (Dashboard.recenter (Dashboard.absorb (Dashboard.seedCluster ⟨0, 0, true, 5⟩)
        ⟨0, 0, true, 20⟩ (haversineKm 0 0 0 0))).markers,
      (Dashboard.recenter (Dashboard.absorb (Dashboard.seedCluster ⟨0, 0, true, 5⟩)
        ⟨0, 0, true, 20⟩ (haversineKm 0 0 0 0))).lat = mr.lat ∧
      (Dashboard.recenter (Dashboard.absorb (Dashboard.seedCluster ⟨0, 0, true, 5⟩)
        ⟨0, 0, true, 20⟩ (haversineKm 0 0 0 0))).lng = mr.lng ∧
      ∀ m ∈ (Dashboard.recenter (Dashboard.absorb (Dashboard.seedCluster ⟨0, 0, true, 5⟩)
          ⟨0, 0, true, 20⟩ (haversineKm 0 0 0 0))).markers,
        haversineKm mr.lat mr.lng
            (Dashboard.centroid (Dashboard.recenter (Dashboard.absorb
              (Dashboard.seedCluster ⟨0, 0, true, 5⟩)
              ⟨0, 0, true, 20⟩ (haversineKm 0 0 0 0))).markers).1
            (Dashboard.centroid (Dashboard.recenter (Dashboard.absorb
              (Dashboard.seedCluster ⟨0, 0, true, 5⟩)
              ⟨0, 0, true, 20⟩ (haversineKm 0 0 0 0))).markers).2
          ≤ haversineKm m.lat m.lng
            (Dashboard.centroid (Dashboard.recenter (Dashboard.absorb
              (Dashboard.seedCluster ⟨0, 0, true, 5⟩)
              ⟨0, 0, true, 20⟩ (haversineKm 0 0 0 0))).markers).1
            (Dashboard.centroid (Dashboard.recenter (Dashboard.absorb
              (Dashboard.seedCluster ⟨0, 0, true, 5⟩)
              ⟨0, 0, true, 20⟩ (haversineKm 0 0 0 0))).markers).2 := by
  have hmem : Dashboard.recenter (Dashboard.absorb (Dashboard.seedCluster ⟨0, 0, true, 5⟩)
      ⟨0, 0, true, 20⟩ (haversineKm 0 0 0 0)) ∈
      Dashboard.clusterMarkers ⟨true, false, 0, 10, 0, 0, 1, false⟩
        [⟨0, 0, true, 5⟩, ⟨0, 0, true, 20⟩] := by
    rw [Dashboard.pair_run_eval]
    simp
  have hlen : 1 < (Dashboard.recenter (Dashboard.absorb (Dashboard.seedCluster ⟨0, 0, true, 5⟩)
      ⟨0, 0, true, 20⟩ (haversineKm 0 0 0 0))).markers.length := by
    rw [Dashboard.recenter_markers']
    simp [Dashboard.absorb, Dashboard.seedCluster]
  exact ⟨hmem, hlen,
    (representativePoint_min ⟨true, false, 0, 10, 0, 0, 1, false⟩
      [⟨0, 0, true, 5⟩, ⟨0, 0, true, 20⟩]).1 _ hmem hlen⟩

end ClaimC8

section ClaimC6

/-- C6 counterexample: the antipodal pair `(0,0)` and `(0,180)` is a
non-empty valid point list whose unit vectors cancel — the mean vector is
zero, its norm is zero, and the JavaScript renormalization divides by
zero (`NaN`), modelled by `none`. -/
theorem sphericalCentroid_counterexample :
    sphericalCentroid [((0:ℝ), (0:ℝ)), ((0:ℝ), (180:ℝ))] = none ∧
      ([((0:ℝ), (0:ℝ)), ((0:ℝ), (180:ℝ))] : List (ℝ × ℝ)) ≠ [] := by
  constructor
  · unfold sphericalCentroid
    rw [if_neg (by simp)]
    have e0 : (0:ℝ) * Real.pi / 180 = 0 := by ring
    have e180 : (180:ℝ) * Real.pi / 180 = Real.pi := by
      field_simp
    simp only [List.map_cons, List.map_nil, List.sum_cons, List.sum_nil, List.length_cons,
      List.length_nil, e0, e180, Real.cos_zero, Real.sin_zero, Real.cos_pi, Real.sin_pi]
    norm_num
  · simp

theorem lat_deg_bounds (z : ℝ) :
    -90 ≤ Real.arcsin z * 180 / Real.pi ∧ Real.arcsin z * 180 / Real.pi ≤ 90 := by
  have hpi := Real.pi_pos
  have h1 := Real.neg_pi_div_two_le_arcsin z
  have h2 := Real.arcsin_le_pi_div_two z
  constructor
  · rw [le_div_iff hpi]
    linarith
  · rw [div_le_iff hpi]
    linarith

theorem lng_deg_bounds (y x : ℝ) :
    -180 < atan2 y x * 180 / Real.pi ∧ atan2 y x * 180 / Real.pi ≤ 180 := by
  have hpi := Real.pi_pos
  unfold atan2
  have h1 := Complex.neg_pi_lt_arg (Complex.mk x y)
  have h2 := Complex.arg_le_pi (Complex.mk x y)
  constructor
  · rw [lt_div_iff hpi]
    linarith
  · rw [div_le_iff hpi]
    linarith

/-- C6 (amended): the spherical centroid is well-defined for every
non-empty point list whose mean vector is non-zero, and then yields a
latitude in `[-90, 90]` and a longitude in `(-180, 180]`; it is undefined
not only on the empty list but also whenever the unit vectors cancel
(e.g. an antipodal pair — see the counterexample). -/
theorem sphericalCentroid_defined (points : List (ℝ × ℝ)) (hne : points ≠ [])
    (hnorm : sphericalCentroidNorm points ≠ 0) :
    ∃ la ln, sphericalCentroid points = some (la, ln) ∧
      -90 ≤ la ∧ la ≤ 90 ∧ -180 < ln ∧ ln ≤ 180 := by
  unfold sphericalCentroid
  rw [if_neg hne]
  unfold sphericalCentroidNorm at hnorm
  rw [if_neg hnorm]
  refine ⟨_, _, rfl, ?_, ?_, ?_, ?_⟩
  · exact (lat_deg_bounds _).1
  · exact (lat_deg_bounds _).2
  · exact (lng_deg_bounds _ _).1
  · exact (lng_deg_bounds _ _).2

/-- Witness for the amended C6 at the one-point list `[(0, 0)]`. -/
theorem sphericalCentroid_defined_witness :
    (([((0:ℝ), (0:ℝ))] : List (ℝ × ℝ)) ≠ [] ∧
        sphericalCentroidNorm [((0:ℝ), (0:ℝ))] ≠ 0) ∧
      ∃ la ln, sphericalCentroid [((0:ℝ), (0:ℝ))] = some (la, ln) ∧
        -90 ≤ la ∧ la ≤ 90 ∧ -180 < ln ∧ ln ≤ 180 := by
  have hne : ([((0:ℝ), (0:ℝ))] : List (ℝ × ℝ)) ≠ [] := by simp
  have hnorm : sphericalCentroidNorm [((0:ℝ), (0:ℝ))] ≠ 0 := by
    unfold sphericalCentroidNorm
    have e0 : (0:ℝ) * Real.pi / 180 = 0 := by ring
    simp only [List.map_cons, List.map_nil, List.sum_cons, List.sum_nil, List.length_cons,
      List.length_nil, e0, Real.cos_zero, Real.sin_zero]
    norm_num
  exact ⟨⟨hne, hnorm⟩, sphericalCentroid_defined _ hne hnorm⟩

end ClaimC6

section ClaimC9

theorem Hotspot.isolationFactor_cases (members : List Bool) :
    Hotspot.isolationFactor members = 0 ∨ Hotspot.isolationFactor members = 1 ∨
      Hotspot.isolationFactor members = 1 / 2 := by
  unfold Hotspot.isolationFactor
  split_ifs <;> simp

theorem Hotspot.clamp01_zero : Hotspot.clamp01 0 = 0 := by
  unfold Hotspot.clamp01
  norm_num

theorem Hotspot.clamp01_nonneg (x : ℝ) : 0 ≤ Hotspot.clamp01 x :=
  le_max_left 0 _

theorem Hotspot.clamp01_le_one (x : ℝ) : Hotspot.clamp01 x ≤ 1 := by
  unfold Hotspot.clamp01
  apply max_le
  · norm_num
  · exact min_le_left 1 x

/-- C9: Risk gating — `riskScore` equals
`clamp01(untrackedRatio · densityFactor · isolationFactor)` when the
isolation factor is positive and `0` otherwise; in particular every
all-tracked cluster (isolation factor `0`) scores exactly `0` regardless
of vessel count or density, the explicit gate is redundant (the
multiplicative form already vanishes), and the score lies in `[0, 1]`. -/
theorem riskScore_gating (members : List Bool) (normalizer : ℝ) :
    (0 < Hotspot.isolationFactor members →
      Hotspot.riskScore members normalizer =
        Hotspot.clamp01 (Hotspot.untrackedFraction members *
          Hotspot.densityFactor members normalizer * Hotspot.isolationFactor members)) ∧
    (¬ 0 < Hotspot.isolationFactor members → Hotspot.riskScore members normalizer = 0) ∧
    ((members.all fun b => b) = true →
      Hotspot.isolationFactor members = 0 ∧ Hotspot.riskScore members normalizer = 0) ∧
    Hotspot.riskScore members normalizer =
      Hotspot.clamp01 (Hotspot.untrackedFraction members *
        Hotspot.densityFactor members normalizer * Hotspot.isolationFactor members) ∧
    0 ≤ Hotspot.riskScore members normalizer ∧ Hotspot.riskScore members normalizer ≤ 1 := by
  have hiso0 : ¬ 0 < Hotspot.isolationFactor members → Hotspot.isolationFactor members = 0 := by
    intro h
    rcases Hotspot.isolationFactor_cases members with h0 | h1 | h2
    · exact h0
    · rw [h1] at h
      norm_num at h
    · rw [h2] at h
      norm_num at h
  have hgate : Hotspot.riskScore members normalizer =
      Hotspot.clamp01 (Hotspot.untrackedFraction members *
        Hotspot.densityFactor members normalizer * Hotspot.isolationFactor members) := by
    unfold Hotspot.riskScore
    split_ifs with h
    · rfl
    · rw [hiso0 h, mul_zero, Hotspot.clamp01_zero]
  refine ⟨fun _ => hgate, ?_, ?_, hgate, ?_, ?_⟩
  · intro h
    unfold Hotspot.riskScore
    rw [if_neg h]
  · intro hall
    have : Hotspot.isolationFactor members = 0 := by
      unfold Hotspot.isolationFactor
      rw [if_pos hall]
    refine ⟨this, ?_⟩
    rw [hgate, this, mul_zero, Hotspot.clamp01_zero]
  · rw [hgate]
    exact Hotspot.clamp01_nonneg _
  · rw [hgate]
    exact Hotspot.clamp01_le_one _

/-- Witness for C9 at the all-tracked two-member cluster. -/
theorem riskScore_gating_witness :
    (([true, true] : List Bool).all fun b => b) = true ∧
      Hotspot.isolationFactor [true, true] = 0 ∧
      Hotspot.riskScore [true, true] 3 = 0 :=
  ⟨by decide, (riskScore_gating [true, true] 3).2.2.1 (by decide)⟩

end ClaimC9

section ClaimC2

theorem Dashboard.absorbScan_nil (seed : Dashboard.VesselData) (thr : ℝ)
    (cl : Dashboard.ClusterData) :
    Dashboard.absorbScan seed thr cl [] = (cl, []) := by
  simp [Dashboard.absorbScan]

theorem Dashboard.absorbScan_cons_done (seed : Dashboard.VesselData) (thr : ℝ)
    (cl : Dashboard.ClusterData) (o : Dashboard.VesselData)
    (rest : List (Dashboard.VesselData × Bool)) :
    Dashboard.absorbScan seed thr cl ((o, true) :: rest)
      = ((Dashboard.absorbScan seed thr cl rest).1,
          (o, true) :: (Dashboard.absorbScan seed thr cl rest).2) := by
  simp [Dashboard.absorbScan]

theorem Dashboard.absorbScan_cons_mismatch (seed : Dashboard.VesselData) (thr : ℝ)
    (cl : Dashboard.ClusterData) (o : Dashboard.VesselData)
    (rest : List (Dashboard.VesselData × Bool)) (h : cl.registered ≠ o.registered) :
    Dashboard.absorbScan seed thr cl ((o, false) :: rest)
      = ((Dashboard.absorbScan seed thr cl rest).1,
          (o, false) :: (Dashboard.absorbScan seed thr cl rest).2) := by
  simp [Dashboard.absorbScan, h]

theorem Dashboard.absorbScan_cons_absorb (seed : Dashboard.VesselData) (thr : ℝ)
    (cl : Dashboard.ClusterData) (o : Dashboard.VesselData)
    (rest : List (Dashboard.VesselData × Bool)) (heq : cl.registered = o.registered)
    (hlt : haversineKm seed.lat seed.lng o.lat o.lng < thr) :
    Dashboard.absorbScan seed thr cl ((o, false) :: rest)
      = ((Dashboard.absorbScan seed thr
            (Dashboard.absorb cl o (haversineKm seed.lat seed.lng o.lat o.lng)) rest).1,
          (o, true) :: (Dashboard.absorbScan seed thr
            (Dashboard.absorb cl o (haversineKm seed.lat seed.lng o.lat o.lng)) rest).2) := by
  simp [Dashboard.absorbScan, heq, hlt]

theorem Dashboard.absorbScan_cons_far (seed : Dashboard.VesselData) (thr : ℝ)
    (cl : Dashboard.ClusterData) (o : Dashboard.VesselData)
    (rest : List (Dashboard.VesselData × Bool)) (heq : cl.registered = o.registered)
    (hlt : ¬ haversineKm seed.lat seed.lng o.lat o.lng < thr) :
    Dashboard.absorbScan seed thr cl ((o, false) :: rest)
      = ((Dashboard.absorbScan seed thr cl rest).1,
          (o, false) :: (Dashboard.absorbScan seed thr cl rest).2) := by
  simp [Dashboard.absorbScan, heq, hlt]

theorem Dashboard.filterReg_nil : Dashboard.filterReg [] = [] := rfl

theorem Dashboard.filterReg_cons_pos (o : Dashboard.VesselData) (done : Bool)
    (rest : List (Dashboard.VesselData × Bool)) (h : o.registered = true) :
    Dashboard.filterReg ((o, done) :: rest) = (o, done) :: Dashboard.filterReg rest := by
  unfold Dashboard.filterReg
  rw [List.filter_cons_of_pos (by simpa using h)]

theorem Dashboard.filterReg_cons_neg (o : Dashboard.VesselData) (done : Bool)
    (rest : List (Dashboard.VesselData × Bool)) (h : o.registered = false) :
    Dashboard.filterReg ((o, done) :: rest) = Dashboard.filterReg rest := by
  unfold Dashboard.filterReg
  rw [List.filter_cons_of_neg (by simp [h])]

theorem Dashboard.filterReg_append (l1 l2 : List (Dashboard.VesselData × Bool)) :
    Dashboard.filterReg (l1 ++ l2) = Dashboard.filterReg l1 ++ Dashboard.filterReg l2 := by
  unfold Dashboard.filterReg
  rw [List.filter_append]

theorem Dashboard.absorb_registered_true (cl : Dashboard.ClusterData)
    (o : Dashboard.VesselData) (d : ℝ) (hcl : cl.registered = true)
    (ho : o.registered = true) :
    (Dashboard.absorb cl o d).registered = true := by
  simp [Dashboard.absorb, hcl, ho]

theorem Dashboard.absorbScan_filterReg (seed : Dashboard.VesselData) (thr : ℝ) :
    ∀ (l : List (Dashboard.VesselData × Bool)) (cl : Dashboard.ClusterData),
      cl.registered = true →
      (Dashboard.absorbScan seed thr cl (Dashboard.filterReg l)).1
          = (Dashboard.absorbScan seed thr cl l).1 ∧
        (Dashboard.absorbScan seed thr cl (Dashboard.filterReg l)).2
          = Dashboard.filterReg ((Dashboard.absorbScan seed thr cl l).2) := by
  intro l
  induction l with
  | nil =>
    intro cl _
    rw [Dashboard.filterReg_nil, Dashboard.absorbScan_nil]
    exact ⟨rfl, rfl⟩
  | cons e rest ih =>
    intro cl hcl
    obtain ⟨o, done⟩ := e
    cases ho : o.registered with
    | false =>
      rw [Dashboard.filterReg_cons_neg o done rest ho]
      cases done with
      | true =>
        rw [Dashboard.absorbScan_cons_done, Dashboard.filterReg_cons_neg o true _ ho]
        exact ih cl hcl
      | false =>
        have hne : cl.registered ≠ o.registered := by
          rw [hcl, ho]
          simp
        rw [Dashboard.absorbScan_cons_mismatch seed thr cl o rest hne,
          Dashboard.filterReg_cons_neg o false _ ho]
        exact ih cl hcl
    | true =>
      rw [Dashboard.filterReg_cons_pos o done rest ho]
      cases done with
      | true =>
        rw [Dashboard.absorbScan_cons_done, Dashboard.absorbScan_cons_done,
          Dashboard.filterReg_cons_pos o true _ ho]
        refine ⟨(ih cl hcl).1, ?_⟩
        rw [(ih cl hcl).2]
      | false =>
        have heq : cl.registered = o.registered := by rw [hcl, ho]
        by_cases hlt : haversineKm seed.lat seed.lng o.lat o.lng < thr
        · rw [Dashboard.absorbScan_cons_absorb seed thr cl o rest heq hlt,
            Dashboard.absorbScan_cons_absorb seed thr cl o
              (Dashboard.filterReg rest) heq hlt,
            Dashboard.filterReg_cons_pos o true _ ho]
          have hcl2 : (Dashboard.absorb cl o
              (haversineKm seed.lat seed.lng o.lat o.lng)).registered = true :=
            Dashboard.absorb_registered_true cl o _ hcl ho
          refine ⟨(ih _ hcl2).1, ?_⟩
          rw [(ih _ hcl2).2]
        · rw [Dashboard.absorbScan_cons_far seed thr cl o rest heq hlt,
            Dashboard.absorbScan_cons_far seed thr cl o
              (Dashboard.filterReg rest) heq hlt,
            Dashboard.filterReg_cons_pos o false _ ho]
          refine ⟨(ih cl hcl).1, ?_⟩
          rw [(ih cl hcl).2]
theorem Dashboard.outerScan_filterReg (p : Dashboard.Params) (hclr : p.clearance = false) :
    ∀ (fuel1 fuel2 : ℕ) (visited toVisit : List (Dashboard.VesselData × Bool)),
      toVisit.length ≤ fuel1 → (Dashboard.filterReg toVisit).length ≤ fuel2 →
      Dashboard.outerScan p fuel1 visited toVisit
        = Dashboard.outerScan p fuel2 (Dashboard.filterReg visited)
            (Dashboard.filterReg toVisit) := by
  intro fuel1
  induction fuel1 with
  | zero =>
    intro fuel2 visited toVisit hlen1 _
    have hempty : toVisit = [] := List.length_eq_zero.mp (Nat.le_zero.mp hlen1)
    subst hempty
    rw [Dashboard.filterReg_nil, Dashboard.outerScan_nil', Dashboard.outerScan_nil']
  | succ fuel1 ih =>
    intro fuel2 visited toVisit hlen1 hlen2
    cases toVisit with
    | nil => rw [Dashboard.filterReg_nil, Dashboard.outerScan_nil', Dashboard.outerScan_nil']
    | cons e rest =>
      obtain ⟨m, done⟩ := e
      have hrest1 : rest.length ≤ fuel1 := by
        simpa using Nat.succ_le_succ_iff.mp hlen1
      cases hmr : m.registered with
      | false =>
        have hLHS : Dashboard.outerScan p (fuel1 + 1) visited ((m, done) :: rest)
            = Dashboard.outerScan p fuel1 (visited ++ [(m, done)]) rest := by
          cases done with
          | true => exact Dashboard.outerScan_cons_true' p fuel1 visited rest m
          | false =>
            apply Dashboard.outerScan_cons_skip
            exact Or.inr (Or.inl ⟨hmr, hclr⟩)
        rw [hLHS, Dashboard.filterReg_cons_neg m done rest hmr] at *
        rw [ih fuel2 (visited ++ [(m, done)]) rest hrest1 hlen2]
        rw [Dashboard.filterReg_append, Dashboard.filterReg_cons_neg m done [] hmr,
          Dashboard.filterReg_nil, List.append_nil]
      | true =>
        rw [Dashboard.filterReg_cons_pos m done rest hmr] at hlen2 ⊢
        cases fuel2 with
        | zero => exact absurd hlen2 (by simp)
        | succ fuel2 =>
          have hrest2 : (Dashboard.filterReg rest).length ≤ fuel2 := by
            simpa using Nat.succ_le_succ_iff.mp hlen2
          cases done with
          | true =>
            rw [Dashboard.outerScan_cons_true', Dashboard.outerScan_cons_true']
            rw [ih fuel2 (visited ++ [(m, true)]) rest hrest1 hrest2]
            rw [Dashboard.filterReg_append, Dashboard.filterReg_cons_pos m true [] hmr,
              Dashboard.filterReg_nil]
          | false =>
            by_cases hs : Dashboard.seedSkipped p m
            · rw [Dashboard.outerScan_cons_skip _ _ _ _ _ hs,
                Dashboard.outerScan_cons_skip _ _ _ _ _ hs]
              rw [ih fuel2 (visited ++ [(m, false)]) rest hrest1 hrest2]
              rw [Dashboard.filterReg_append, Dashboard.filterReg_cons_pos m false [] hmr,
                Dashboard.filterReg_nil]
            · rw [Dashboard.outerScan_cons_seed _ _ _ _ _ hs,
                Dashboard.outerScan_cons_seed _ _ _ _ _ hs]
              have hseedreg : (Dashboard.seedCluster m).registered = true := by
                simp [Dashboard.seedCluster, hmr]
              have hA1 := Dashboard.absorbScan_filterReg m (Dashboard.clusterThreshold p)
                visited (Dashboard.seedCluster m) hseedreg
              have hreg1 : (Dashboard.absorbScan m (Dashboard.clusterThreshold p)
                  (Dashboard.seedCluster m) visited).1.registered = true := by
                rw [Dashboard.absorbScan_fst_registered]
                exact hseedreg
              have hA2 := Dashboard.absorbScan_filterReg m (Dashboard.clusterThreshold p)
                rest ((Dashboard.absorbScan m (Dashboard.clusterThreshold p)
                  (Dashboard.seedCluster m) visited).1) hreg1
              rw [hA1.1, hA1.2, hA2.1, hA2.2]
              congr 1
              have hl1 : ((Dashboard.absorbScan m (Dashboard.clusterThreshold p)
                  ((Dashboard.absorbScan m (Dashboard.clusterThreshold p)
                    (Dashboard.seedCluster m) visited).1) rest).2).length ≤ fuel1 := by
                rw [Dashboard.absorbScan_snd_length']
                exact hrest1
              have hl2 : (Dashboard.filterReg ((Dashboard.absorbScan m
                  (Dashboard.clusterThreshold p)
                  ((Dashboard.absorbScan m (Dashboard.clusterThreshold p)
                    (Dashboard.seedCluster m) visited).1) rest).2)).length ≤ fuel2 := by
                rw [← hA2.2, Dashboard.absorbScan_snd_length']
                exact hrest2
              rw [ih fuel2 ((Dashboard.absorbScan m (Dashboard.clusterThreshold p)
                (Dashboard.seedCluster m) visited).2 ++ [(m, true)]) _ hl1 hl2]
              rw [Dashboard.filterReg_append, Dashboard.filterReg_cons_pos m true [] hmr,
                Dashboard.filterReg_nil]

theorem Dashboard.filterReg_map_false (ms : List Dashboard.VesselData) :
    Dashboard.filterReg (ms.map fun m => (m, false))
      = (ms.filter fun m => m.registered).map fun m => (m, false) := by
  induction ms with
  | nil => rfl
  | cons a rest ih =>
    cases ha : a.registered with
    | true =>
      rw [List.map_cons, Dashboard.filterReg_cons_pos _ _ _ ha, ih,
        List.filter_cons_of_pos (by simpa using ha), List.map_cons]
    | false =>
      rw [List.map_cons, Dashboard.filterReg_cons_neg _ _ _ ha, ih,
        List.filter_cons_of_neg (by simp [ha])]

/-- C2: Clearance gate — when the caller lacks the
confidential/secret/top-secret clearance (`hasAnyRole` false), no
unregistered (untracked) fix appears in any returned cluster, and the
whole output coincides with the run over the input with all untracked
fixes removed. -/
theorem clearance_gate (p : Dashboard.Params) (ms : List Dashboard.VesselData)
    (h : p.clearance = false) :
    (∀ c ∈ Dashboard.clusterMarkers p ms, c.registered = true ∧
        ∀ m ∈ c.markers, m.registered = true) ∧
      Dashboard.clusterMarkers p ms
        = Dashboard.clusterMarkers p (ms.filter fun m => m.registered) := by
  constructor
  · intro c hc
    unfold Dashboard.clusterMarkers at hc
    by_cases hms : ms.isEmpty
    · rw [if_pos hms] at hc
      simp at hc
    · rw [if_neg hms] at hc
      obtain ⟨cl, seed, extra, hceq, hmark, _, _, hreg, hflag, hns⟩ :=
        Dashboard.outerScan_clusters p ms.length [] _ c hc
      have hseedreg : seed.registered = true := by
        cases hsr : seed.registered with
        | true => rfl
        | false => exact absurd (Or.inr (Or.inl ⟨hsr, h⟩)) hns
      have hcreg : c.registered = true := by
        rw [hceq, Dashboard.recenter_registered, hreg, hseedreg]
      refine ⟨hcreg, ?_⟩
      intro m hm
      have hcm : c.markers = cl.markers := by rw [hceq, Dashboard.recenter_markers']
      rw [hflag m (hcm ▸ hm), hreg, hseedreg]
  · unfold Dashboard.clusterMarkers
    by_cases hms : ms.isEmpty
    · have hempty : ms = [] := List.isEmpty_iff.mp hms
      subst hempty
      simp
    · rw [if_neg hms]
      have hstep := Dashboard.outerScan_filterReg p h ms.length
        ((ms.filter fun m => m.registered).length) [] (ms.map fun m => (m, false))
        (by simp) (by rw [Dashboard.filterReg_map_false]; simp)
      rw [hstep, Dashboard.filterReg_nil, Dashboard.filterReg_map_false]
      by_cases hf : (ms.filter fun m => m.registered).isEmpty
      · have hempty : (ms.filter fun m => m.registered) = [] := List.isEmpty_iff.mp hf
        rw [if_pos hf, hempty]
        rw [List.map_nil, Dashboard.outerScan_nil']
      · rw [if_neg hf]

/-- Witness for C2 at a concrete no-clearance run. -/
theorem clearance_gate_witness :
    (⟨true, false, 0, 10, 0, 0, 1, false⟩ : Dashboard.Params).clearance = false ∧
      ((∀ c ∈ Dashboard.clusterMarkers ⟨true, false, 0, 10, 0, 0, 1, false⟩
          [⟨0, 0, true, 5⟩], c.registered = true ∧ ∀ m ∈ c.markers, m.registered = true) ∧
        Dashboard.clusterMarkers ⟨true, false, 0, 10, 0, 0, 1, false⟩ [⟨0, 0, true, 5⟩]
          = Dashboard.clusterMarkers ⟨true, false, 0, 10, 0, 0, 1, false⟩
              (([⟨0, 0, true, 5⟩] : List Dashboard.VesselData).filter
                fun m => m.registered)) :=
  ⟨rfl, clearance_gate ⟨true, false, 0, 10, 0, 0, 1, false⟩ [⟨0, 0, true, 5⟩] rfl⟩

end ClaimC2
